import Mathlib

/-!
Verification development for the MarkMark modal editing engine.

This file gives a shallow embedding, in Lean 4, of the core of the modal
text-editing engine of the MarkMark editor:

* `src/core/helix_mode.py`: `Selection`, `TextObjectFinder`,
  `MultiCursorManager`, `SurroundManager`, `HelixFeatures.apply_to_selections`;
* `src/core/vim_mode.py`: `VimMode.handle_key` with its per-mode handlers,
  the key-sequence lookup tables, the ex-command dispatcher and its command
  handlers, and the register store.

Python strings are modelled as `List Char`; buffer offsets are modelled as
`Int` (Python integers can go negative, and Python slicing/indexing treats
negative indices specially, which is modelled faithfully by `pyNorm`,
`pySlice` and `pyGetI` below).  Operations that can raise an `IndexError`
in Python are modelled in the `Except PyErr` monad; total Python code is
modelled by total Lean functions.  Python `dict` literals are modelled as
association lists where a later binding for the same key wins, matching
the semantics of duplicated keys in a `dict` literal.
-/

/-- Errors the Python code can raise; the engine code can only hit
`IndexError` (string indexing out of range). -/
inductive PyErr where
  | indexError
deriving DecidableEq, Repr

deriving instance DecidableEq for Except

/-- The single-quote character, written via its code point. -/
def squoteC : Char := Char.ofNat 39

/-- The backtick character, written via its code point. -/
def btickC : Char := Char.ofNat 96

/-- Python whitespace test: the exact set of code points for which
`str.isspace()` is true (which is also the set `str.strip()` /
`str.split(None)` delimit on and the set `\s` matches in a `str` regex):
U+0009..U+000D, U+001C..U+001F, space, U+0085, U+00A0, U+1680,
U+2000..U+200A, U+2028, U+2029, U+202F, U+205F and U+3000. -/
def isPySpace (c : Char) : Bool :=
  let n := c.toNat
  (0x09 ≤ n ∧ n ≤ 0x0D) ∨ (0x1C ≤ n ∧ n ≤ 0x20) ∨ n = 0x85 ∨ n = 0xA0 ∨
    n = 0x1680 ∨ (0x2000 ≤ n ∧ n ≤ 0x200A) ∨ n = 0x2028 ∨ n = 0x2029 ∨
    n = 0x202F ∨ n = 0x205F ∨ n = 0x3000

/-- Whether every character of the string is ASCII.  On ASCII text the
ASCII character-class models below (`isWordChar` for `\w`, `Char.isDigit`
for `\d`) agree exactly with Python's Unicode-aware `re` classes, so
theorems about the ex-command dispatcher quantify over ASCII buffers. -/
def allAscii (l : List Char) : Bool := l.all (fun c => c.toNat ≤ 127)

/-- Python `\w` word-character class on ASCII text: alphanumeric or
underscore.  (Python's `\w` additionally matches non-ASCII word
characters; statements that depend on this class therefore restrict their
inputs to ASCII via `allAscii`, where the two coincide.) -/
def isWordChar (c : Char) : Bool := c.isAlphanum || c = '_'

/-- Normalise a Python index `i` for slicing a sequence of length `len`:
negative indices count from the end, and the result is clamped into
`[0, len]`. -/
def pyNorm (len : Nat) (i : Int) : Nat :=
  if i < 0 then (max 0 ((len : Int) + i)).toNat else min i.toNat len

/-- Python slice `s[a:b]`. -/
def pySlice (s : List Char) (a b : Int) : List Char :=
  (s.take (pyNorm s.length b)).drop (pyNorm s.length a)

/-- Python slice `s[:b]`. -/
def pyTake (s : List Char) (b : Int) : List Char := s.take (pyNorm s.length b)

/-- Python slice `s[a:]`. -/
def pyDrop (s : List Char) (a : Int) : List Char := s.drop (pyNorm s.length a)

/-- Python indexing `s[i]` for a nonnegative index: raises `IndexError`
when `i` is out of range. -/
def pyGetE (s : List Char) (i : Nat) : Except PyErr Char :=
  if i < s.length then .ok (s.getD i ' ') else .error .indexError

/-- Python indexing `s[i]` for an arbitrary integer index: a negative index
counts from the end; out of range raises `IndexError`. -/
def pyGetI (s : List Char) (i : Int) : Except PyErr Char :=
  if 0 ≤ i then pyGetE s i.toNat
  else if 0 ≤ (s.length : Int) + i then pyGetE s ((s.length : Int) + i).toNat
  else .error .indexError

/-- Python `str.strip()` (default whitespace stripping). -/
def pyStrip (s : List Char) : List Char :=
  ((s.dropWhile isPySpace).reverse.dropWhile isPySpace).reverse

/-- Index of the last occurrence of `c` in `l`, if any. -/
def lastIdxOf (c : Char) (l : List Char) : Option Nat :=
  (l.foldl (fun (acc : Nat × Option Nat) x =>
    (acc.1 + 1, if x = c then some acc.1 else acc.2)) (0, none)).2

/-- Index of the first occurrence of `c` in `l`, if any. -/
def firstIdxOf (c : Char) (l : List Char) : Option Nat :=
  (l.foldl (fun (acc : Nat × Option Nat) x =>
    (acc.1 + 1, if acc.2.isSome then acc.2 else if x = c then some acc.1 else acc.2))
    (0, none)).2

/-- Python `content.rfind(c, lo, hi)`: last absolute index of `c` inside the
slice `content[lo:hi]`, or `-1`. -/
def pyRfind (s : List Char) (c : Char) (lo hi : Int) : Int :=
  let a := pyNorm s.length lo
  let b := pyNorm s.length hi
  match lastIdxOf c ((s.take b).drop a) with
  | none => -1
  | some k => (a : Int) + k

/-- Python `content.find(c, start)`: first absolute index of `c` at or after
`start`, or `-1`. -/
def pyFindFrom (s : List Char) (c : Char) (start : Int) : Int :=
  let a := pyNorm s.length start
  match firstIdxOf c (s.drop a) with
  | none => -1
  | some k => (a : Int) + k

/-- Count of `'\n'` characters in `l` (used for `content[:pos].count('\n')`). -/
def countNL (l : List Char) : Nat := (l.filter (· = '\n')).length

/-- Python `content.split('\n')`: worker with an accumulator. -/
def pySplitNLGo : List Char → List Char → List (List Char)
  | [], acc => [acc.reverse]
  | c :: cs, acc =>
    if c = '\n' then acc.reverse :: pySplitNLGo cs [] else pySplitNLGo cs (c :: acc)

/-- Python `content.split('\n')`. -/
def pySplitNL (s : List Char) : List (List Char) := pySplitNLGo s []

/-- Length of the run of characters satisfying `p` starting at index `i`. -/
def runLen (p : Char → Bool) (s : List Char) (i : Nat) : Nat :=
  ((s.drop i).takeWhile p).length

/-! Section: `helix_mode.Selection` -/

/-- Model of `Selection` from `helix_mode.py`: `{anchor, head, primary}`.  Offsets are
Python integers, hence `Int`. -/
structure Selection where
  anchor : Int
  head : Int
  primary : Bool := false
deriving DecidableEq, Repr

/-- Model of `Selection.start`: the smaller of anchor and head. -/
def Selection.start (s : Selection) : Int := min s.anchor s.head

/-- Model of `Selection.end` (named `stop` here because `end` is a Lean keyword):
the larger of anchor and head. -/
def Selection.stop (s : Selection) : Int := max s.anchor s.head

/-! Section: `helix_mode.TextObjectFinder`

Each `_find_*` helper is translated directly.  Scanning loops are written
with an explicit decreasing counter (for backward scans) or explicit fuel
(for forward scans); the fuel supplied at every call site strictly exceeds
the number of iterations the Python loop can perform, so the fuel-exhausted
branch is unreachable. -/

/-- Opening bracket for a pair character, mirroring
`pairs = {'(': ')', ... , '}': '{'}` with
`open_char = pair_char if pair_char in open_chars else pairs.get(pair_char, pair_char)`. -/
def bpOpenChar (ch : Char) : Char :=
  if ch = '(' ∨ ch = '[' ∨ ch = '{' then ch
  else if ch = ')' then '(' else if ch = ']' then '[' else if ch = '}' then '{'
  else ch

/-- Closing bracket: `close_char = pairs.get(open_char, open_char)`. -/
def bpCloseChar (openC : Char) : Char :=
  if openC = '(' then ')' else if openC = '[' then ']' else if openC = '{' then '}'
  else if openC = ')' then '(' else if openC = ']' then '[' else if openC = '}' then '{'
  else openC

/-- Backward scan of `_find_balanced_pair`: Python
`for i in range(pos, -1, -1)` with a depth counter.  The argument `i1` is
one plus the index examined next (so `i1 = 0` means the loop ended without
a `break`, i.e. `start` stayed `-1`). -/
def bpScanBack (content : List Char) (openC closeC : Char) (pos : Nat) :
    Nat → Int → Except PyErr (Option Nat)
  | 0, _ => .ok none
  | i + 1, depth =>
    match pyGetE content i with
    | .error e => .error e
    | .ok c =>
      if c = closeC ∧ i ≠ pos then bpScanBack content openC closeC pos i (depth + 1)
      else if c = openC then
        if depth = 0 then .ok (some i)
        else bpScanBack content openC closeC pos i (depth - 1)
      else bpScanBack content openC closeC pos i depth

/-- Forward scan of `_find_balanced_pair`: Python
`for i in range(start, len(content))`; indices in this range are always
valid, so no `IndexError` can arise here. -/
def bpScanFwd (content : List Char) (openC closeC : Char) :
    Nat → Nat → Int → Option Nat
  | 0, _, _ => none
  | fuel + 1, i, depth =>
    if i < content.length then
      let c := content.getD i ' '
      if c = openC then bpScanFwd content openC closeC fuel (i + 1) (depth + 1)
      else if c = closeC then
        if depth - 1 = 0 then some i
        else bpScanFwd content openC closeC fuel (i + 1) (depth - 1)
      else bpScanFwd content openC closeC fuel (i + 1) depth
    else none

/-- Model of `TextObjectFinder._find_balanced_pair`.  A negative `pos` makes the
Python backward `range` empty, so `start` stays `-1` and the result is
`None`. -/
def findBalancedPair (content : List Char) (pos : Int) (ch : Char) (inner : Bool) :
    Except PyErr (Option (Int × Int)) :=
  let openC := bpOpenChar ch
  let closeC := bpCloseChar openC
  if pos < 0 then .ok none
  else
    match bpScanBack content openC closeC pos.toNat (pos.toNat + 1) 0 with
    | .error e => .error e
    | .ok none => .ok none
    | .ok (some start) =>
      match bpScanFwd content openC closeC (content.length + 1) start 0 with
      | none => .ok none
      | some stop =>
        .ok (some (if inner then ((start : Int) + 1, stop) else (start, (stop : Int) + 1)))

/-- Backward scan of `_find_quote`: find the quote character, skipping any
occurrence immediately preceded by a backslash. -/
def quoteScanBack (content : List Char) (q : Char) : Nat → Except PyErr (Option Nat)
  | 0 => .ok none
  | i + 1 =>
    match pyGetE content i with
    | .error e => .error e
    | .ok c =>
      if c = q then
        if 0 < i ∧ content.getD (i - 1) ' ' = '\\' then quoteScanBack content q i
        else .ok (some i)
      else quoteScanBack content q i

/-- Forward scan of `_find_quote`: Python `for i in range(start+1, len(content))`
looking for an unescaped quote. -/
def quoteScanFwd (content : List Char) (q : Char) : Nat → Nat → Option Nat
  | 0, _ => none
  | fuel + 1, i =>
    if i < content.length then
      if content.getD i ' ' = q ∧ content.getD (i - 1) ' ' ≠ '\\' then some i
      else quoteScanFwd content q fuel (i + 1)
    else none

/-- Model of `TextObjectFinder._find_quote`. -/
def findQuote (content : List Char) (pos : Int) (q : Char) (inner : Bool) :
    Except PyErr (Option (Int × Int)) :=
  if pos < 0 then .ok none
  else
    match quoteScanBack content q (pos.toNat + 1) with
    | .error e => .error e
    | .ok none => .ok none
    | .ok (some start) =>
      match quoteScanFwd content q (content.length + 1) (start + 1) with
      | none => .ok none
      | some stop =>
        .ok (some (if inner then ((start : Int) + 1, stop) else (start, (stop : Int) + 1)))

/-- The `while start > 0 and word_chars(content[start - 1]): start -= 1`
loop of `_find_word`.  Indices read by this loop are in `[0, pos)`, hence in
range whenever the loop runs. -/
def wordScanBack (content : List Char) (wc : Char → Bool) : Nat → Int → Int
  | 0, start => start
  | fuel + 1, start =>
    if 0 < start ∧ wc (content.getD (start - 1).toNat ' ') then
      wordScanBack content wc fuel (start - 1)
    else start

/-- The `while end < len(content) and word_chars(content[end]): end += 1`
loop of `_find_word`; a negative `end` makes Python index from the end of
the string (or raise `IndexError`). -/
def wordScanFwd (content : List Char) (wc : Char → Bool) : Nat → Int → Except PyErr Int
  | 0, stop => .ok stop
  | fuel + 1, stop =>
    if stop < (content.length : Int) then
      match pyGetI content stop with
      | .error e => .error e
      | .ok c =>
        if wc c then wordScanFwd content wc fuel (stop + 1) else .ok stop
    else .ok stop

/-- Model of `TextObjectFinder._find_word`. -/
def findWord (content : List Char) (pos : Int) (bigWord : Bool) (_inner : Bool) :
    Except PyErr (Option (Int × Int)) :=
  if (content.length : Int) ≤ pos then .ok none
  else
    let wc : Char → Bool := if bigWord then (fun c => ¬ isPySpace c) else isWordChar
    let start := wordScanBack content wc (content.length + 1) pos
    match wordScanFwd content wc (2 * content.length + 2) pos with
    | .error e => .error e
    | .ok stop => if start = stop then .ok none else .ok (some (start, stop))

/-- The `while start_line > 0 and all_lines[start_line - 1].strip()` loop of
`_find_paragraph`. -/
def paraScanUp (lines : List (List Char)) : Nat → Nat
  | 0 => 0
  | i + 1 =>
    if pyStrip (lines.getD i []) ≠ [] then paraScanUp lines i else i + 1

/-- The `while end_line < len(all_lines) - 1 and all_lines[end_line + 1].strip()`
loop of `_find_paragraph`. -/
def paraScanDown (lines : List (List Char)) : Nat → Nat → Nat
  | 0, i => i
  | fuel + 1, i =>
    if i + 1 < lines.length ∧ pyStrip (lines.getD (i + 1) []) ≠ [] then
      paraScanDown lines fuel (i + 1)
    else i

/-- Model of `sum(len(all_lines[j]) + 1 for j in range(k))`. -/
def paraPrefixLen (lines : List (List Char)) (k : Nat) : Nat :=
  ((lines.take k).map (fun l => l.length + 1)).sum

/-- Model of `TextObjectFinder._find_paragraph`.  The `inner` flag is accepted but
unused, exactly as in the source. -/
def findParagraph (content : List Char) (pos : Int) (_inner : Bool) :
    Except PyErr (Option (Int × Int)) :=
  let lineNo := countNL (pyTake content pos)
  let allLines := pySplitNL content
  let startLine := paraScanUp allLines lineNo
  let stopLine := paraScanDown allLines allLines.length lineNo
  let startPos : Int := paraPrefixLen allLines startLine
  let stopPos : Int := (paraPrefixLen allLines (stopLine + 1) : Int) - 1
  .ok (some (startPos, stopPos))

/-- Non-overlapping matches of the regex `[.!?]+\s+` in `s`, as
`(start, stop)` index pairs — the scan of `re.finditer` specialised to this
pattern (greedy runs; a match needs at least one punctuation character
followed by at least one whitespace character). -/
def sentMatchesGo (s : List Char) : Nat → Nat → List (Nat × Nat)
  | 0, _ => []
  | fuel + 1, i =>
    if i < s.length then
      let a := runLen (fun c => c = '.' ∨ c = '!' ∨ c = '?') s i
      if a = 0 then sentMatchesGo s fuel (i + 1)
      else
        let b := runLen isPySpace s (i + a)
        if b = 0 then sentMatchesGo s fuel (i + 1)
        else (i, i + a + b) :: sentMatchesGo s fuel (i + a + b)
    else []

/-- All matches of `[.!?]+\s+` in `s`. -/
def sentMatches (s : List Char) : List (Nat × Nat) := sentMatchesGo s (s.length + 1) 0

/-- Model of `TextObjectFinder._find_sentence`: `start` is the end of the last
pattern match before the cursor, `end` is the end of the first match at or
after it. -/
def findSentence (content : List Char) (pos : Int) (_inner : Bool) :
    Except PyErr (Option (Int × Int)) :=
  let start : Int := ((sentMatches (pyTake content pos)).getLast?.map (·.2)).getD 0
  let stop : Int :=
    match (sentMatches (pyDrop content pos)).head? with
    | some m => pos + (m.2 : Int)
    | none => content.length
  .ok (some (start, stop))

/-- Non-overlapping matches of the opening-tag regex `<([^/!>][^>]*)>`:
returns `(matchEnd, groupChars)` pairs in scan order. -/
def tagOpenMatchesGo (s : List Char) : Nat → Nat → List (Nat × List Char)
  | 0, _ => []
  | fuel + 1, i =>
    if i < s.length then
      if s.getD i ' ' = '<' ∧ i + 1 < s.length ∧
          s.getD (i + 1) ' ' ≠ '/' ∧ s.getD (i + 1) ' ' ≠ '!' ∧ s.getD (i + 1) ' ' ≠ '>' then
        let g := (s.drop (i + 1)).takeWhile (· ≠ '>')
        let j := i + 1 + g.length
        if j < s.length then
          (j + 1, g) :: tagOpenMatchesGo s fuel (j + 1)
        else tagOpenMatchesGo s fuel (i + 1)
      else tagOpenMatchesGo s fuel (i + 1)
    else []

/-- All matches of `<([^/!>][^>]*)>` in `s`. -/
def tagOpenMatches (s : List Char) : List (Nat × List Char) :=
  tagOpenMatchesGo s (s.length + 1) 0

/-- The depth-tracking loop of `_find_tag`:
`for i in range(start, len(content))` testing
`content[i:].startswith('<' + tag_name)` and `content[i:].startswith(close_tag)`. -/
def tagDepthScan (content : List Char) (openPre closeTag : List Char) :
    Nat → Nat → Int → Option Nat
  | 0, _, _ => none
  | fuel + 1, i, depth =>
    if i < content.length then
      if openPre.isPrefixOf (content.drop i) then
        tagDepthScan content openPre closeTag fuel (i + 1) (depth + 1)
      else if closeTag.isPrefixOf (content.drop i) then
        if depth - 1 = 0 then some i
        else tagDepthScan content openPre closeTag fuel (i + 1) (depth - 1)
      else tagDepthScan content openPre closeTag fuel (i + 1) depth
    else none

/-- Python `group.split()` (whitespace split dropping empties). -/
def pyWsTokens (s : List Char) : List (List Char) :=
  ((pySplitNLGo s []).flatten.foldr (fun c acc =>
    if isPySpace c then [] :: acc
    else match acc with
      | [] => [[c]]
      | t :: ts => (c :: t) :: ts) []).filter (· ≠ [])

/-- Model of `TextObjectFinder._find_tag`.  `match.group(1).split()[0]` raises
`IndexError` when the captured group is entirely whitespace. -/
def findTag (content : List Char) (pos : Int) (inner : Bool) :
    Except PyErr (Option (Int × Int)) :=
  match (tagOpenMatches (pyTake content (pos + 1))).getLast? with
  | none => .ok none
  | some (start, g) =>
    match (pyWsTokens g).head? with
    | none => .error .indexError
    | some tagName =>
      let closeTag := '<' :: '/' :: tagName ++ ['>']
      let openPre := '<' :: tagName
      match tagDepthScan content openPre closeTag (content.length + 1) start 1 with
      | none => .ok none
      | some stop =>
        if inner then .ok (some (start, stop))
        else .ok (some ((start : Int) - (tagName.length + 2 : Nat), (stop : Int) + closeTag.length))

/-- Non-overlapping matches of the markdown-link regex
`\[([^\]]+)\]\(([^)]+)\)`: returns `(start, stop, textLen)` triples. -/
def linkMatchesGo (s : List Char) : Nat → Nat → List (Nat × Nat × Nat)
  | 0, _ => []
  | fuel + 1, i =>
    if i < s.length then
      if s.getD i ' ' = '[' then
        let g1 := (s.drop (i + 1)).takeWhile (· ≠ ']')
        let j := i + 1 + g1.length
        if g1 ≠ [] ∧ j < s.length ∧ s.getD j ' ' = ']' ∧ s.getD (j + 1) ' ' = '(' ∧
            j + 1 < s.length then
          let g2 := (s.drop (j + 2)).takeWhile (· ≠ ')')
          let k := j + 2 + g2.length
          if g2 ≠ [] ∧ k < s.length ∧ s.getD k ' ' = ')' then
            (i, k + 1, g1.length) :: linkMatchesGo s fuel (k + 1)
          else linkMatchesGo s fuel (i + 1)
        else linkMatchesGo s fuel (i + 1)
      else linkMatchesGo s fuel (i + 1)
    else []

/-- All markdown-link matches in `s`. -/
def linkMatches (s : List Char) : List (Nat × Nat × Nat) :=
  linkMatchesGo s (s.length + 1) 0

/-- Model of `TextObjectFinder._find_markdown_link`: the first match whose span
contains the cursor. -/
def findMarkdownLink (content : List Char) (pos : Int) (inner : Bool) :
    Except PyErr (Option (Int × Int)) :=
  match (linkMatches content).find?
      (fun m => decide ((m.1 : Int) ≤ pos) && decide (pos ≤ (m.2.1 : Int))) with
  | none => .ok none
  | some (s, stop, tlen) =>
    if inner then .ok (some ((s : Int) + 1, (s : Int) + 1 + tlen))
    else .ok (some (s, stop))

/-- Lazy search for the next closing code fence at or after position `k`
(the `(.*?)` part of the code-block regex stopping at a triple backtick). -/
def fenceSearch (s : List Char) : Nat → Nat → Option Nat
  | 0, _ => none
  | fuel + 1, k =>
    if k < s.length then
      if (List.replicate 3 btickC).isPrefixOf (s.drop k) then some k
      else fenceSearch s fuel (k + 1)
    else none

/-- Non-overlapping matches of the code-block regex (triple backtick, then
`.*?\n`, then a lazily matched body, then a closing triple backtick) with
`re.DOTALL`: returns `(start, stop)` pairs. -/
def codeBlockMatchesGo (s : List Char) : Nat → Nat → List (Nat × Nat)
  | 0, _ => []
  | fuel + 1, i =>
    if i < s.length then
      if (List.replicate 3 btickC).isPrefixOf (s.drop i) then
        match firstIdxOf '\n' (s.drop (i + 3)) with
        | none => codeBlockMatchesGo s fuel (i + 1)
        | some d =>
          let j := i + 3 + d
          match fenceSearch s (s.length + 1) (j + 1) with
          | none => codeBlockMatchesGo s fuel (i + 1)
          | some k => (i, k + 3) :: codeBlockMatchesGo s fuel (k + 3)
      else codeBlockMatchesGo s fuel (i + 1)
    else []

/-- All code-block matches in `s`. -/
def codeBlockMatches (s : List Char) : List (Nat × Nat) :=
  codeBlockMatchesGo s (s.length + 1) 0

/-- Model of `TextObjectFinder._find_code_block`. -/
def findCodeBlock (content : List Char) (pos : Int) (inner : Bool) :
    Except PyErr (Option (Int × Int)) :=
  match (codeBlockMatches content).find?
      (fun m => decide ((m.1 : Int) ≤ pos) && decide (pos ≤ (m.2 : Int))) with
  | none => .ok none
  | some (s, stop) =>
    if inner then .ok (some (pyFindFrom content '\n' s + 1, (stop : Int) - 3))
    else .ok (some (s, stop))

/-- The trigger characters present in `TextObjectFinder.TEXT_OBJECTS`. -/
def knownObjChars : List Char :=
  ['(', ')', '[', ']', '{', '}', '<', '>', '"', squoteC, btickC,
   'w', 'W', 's', 'p', 'f', 'c', 't', 'i', 'h', 'l', 'k']

/-- Model of `TextObjectFinder.find_object` (with the default empty
`custom_objects` map).  Dispatches on the object character exactly as the
chain of `if`/`elif` tests in the source does; trigger characters that fall
through every branch (such as `<`, `>`, `f`, `c`, `i`, `h`) return `None`. -/
def findObjectI (content : List Char) (pos : Int) (ch : Char) (inner : Bool) :
    Except PyErr (Option (Int × Int)) :=
  if ch ∉ knownObjChars then .ok none
  else if ch = '(' ∨ ch = ')' ∨ ch = '[' ∨ ch = ']' ∨ ch = '{' ∨ ch = '}' then
    findBalancedPair content pos ch inner
  else if ch = '"' ∨ ch = squoteC ∨ ch = btickC then
    findQuote content pos ch inner
  else if ch = 'w' ∨ ch = 'W' then findWord content pos (ch = 'W') inner
  else if ch = 'p' then findParagraph content pos inner
  else if ch = 's' then findSentence content pos inner
  else if ch = 't' then findTag content pos inner
  else if ch = 'l' then findMarkdownLink content pos inner
  else if ch = 'k' then findCodeBlock content pos inner
  else .ok none


/-! Section: `helix_mode.MultiCursorManager`

The manager's state is its `selections` list.  Each public operation is
translated as a function `List Selection → List Selection`.  The regex used
by `split_selection_by_regex` is abstracted by the list of match spans it
produces inside each selection (the only thing the surrounding code ever
uses), so the primary-flag bookkeeping is verified for every possible match
result. -/

/-- The initial `selections` list: `[Selection(0, 0, primary=True)]`. -/
def initSelections : List Selection := [⟨0, 0, true⟩]

/-- Set `primary := false` on a selection (the `sel.primary = False` loop). -/
def clearPrimary (s : Selection) : Selection := { s with primary := false }

/-- Set `selections[0].primary = True` (no-op on an empty list, guarded in
the source by emptiness checks). -/
def setHeadPrimary : List Selection → List Selection
  | [] => []
  | x :: xs => { x with primary := true } :: xs

/-- Model of `MultiCursorManager.primary_selection`: the first selection with
`primary=True`, else `selections[0]`, else `Selection(0, 0, primary=True)`. -/
def primarySelection (sels : List Selection) : Selection :=
  match sels.find? (·.primary) with
  | some s => s
  | none => sels.headD ⟨0, 0, true⟩

/-- Model of `MultiCursorManager.add_selection`: with `primary=True` every existing
selection first loses its primary flag; the new selection is appended. -/
def addSelection (a h : Int) (p : Bool) (sels : List Selection) : List Selection :=
  (if p then sels.map clearPrimary else sels) ++ [⟨a, h, p⟩]

/-- Model of `MultiCursorManager.remove_selection`: delete by index; if the removed
selection was primary and selections remain, index 0 becomes primary. -/
def removeSelection (i : Nat) (sels : List Selection) : List Selection :=
  if hi : i < sels.length then
    let wasPrimary := (sels.get ⟨i, hi⟩).primary
    let rest := sels.eraseIdx i
    if wasPrimary ∧ rest ≠ [] then setHeadPrimary rest else rest
  else sels

/-- Model of `MultiCursorManager.clear_selections`: collapse to a cursor at the
primary selection's head. -/
def clearSelections (sels : List Selection) : List Selection :=
  let p := primarySelection sels
  [⟨p.head, p.head, true⟩]

/-- Model of `MultiCursorManager.select_all`. -/
def selectAll (contentLength : Nat) : List Selection :=
  [⟨0, contentLength, true⟩]

/-- The collection loop of `split_selection_by_line`: one
`Selection(pos, line_end, i == 0)` per (line, selection) pair whose spans
intersect. -/
def splitByLineCollect (sels : List Selection) :
    List (List Char) → Nat → Nat → List Selection
  | [], _, _ => []
  | line :: rest, pos, i =>
    let lineEnd := pos + line.length
    (sels.filterMap fun sel =>
      if sel.start ≤ (lineEnd : Int) ∧ (pos : Int) ≤ sel.stop then
        some ⟨pos, lineEnd, i = 0⟩
      else none)
      ++ splitByLineCollect sels rest (lineEnd + 1) (i + 1)

/-- Model of `MultiCursorManager.split_selection_by_line`: if any line-selections were
collected, clear every primary flag and make index 0 primary. -/
def splitSelectionByLine (content : List Char) (sels : List Selection) :
    List Selection :=
  let ns := splitByLineCollect sels (pySplitNL content) 0 0
  if ns ≠ [] then setHeadPrimary (ns.map clearPrimary) else sels

/-- Build selections from spans the way the appending loops in
`split_selection_by_regex` / `select_text_object` do: each appended
selection is primary iff the accumulator was empty when it was appended,
i.e. only the first one. -/
def buildSels (first : Bool) : List (Int × Int) → List Selection
  | [] => []
  | (a, h) :: rest => ⟨a, h, first⟩ :: buildSels false rest

/-- Model of `MultiCursorManager.split_selection_by_regex`, with the regex engine
abstracted by `rxMatches`, the list of `(start, stop)` match spans
`re.finditer(pattern, content[sel.start:sel.end])` yields inside each
selection (spans are relative to `sel.start`). -/
def splitSelectionByRegex (rxMatches : Selection → List (Nat × Nat))
    (sels : List Selection) : List Selection :=
  let spans := (sels.map fun sel =>
    (rxMatches sel).map fun m => (sel.start + m.1, sel.start + m.2)).flatten
  let ns := buildSels true spans
  if ns ≠ [] then ns else sels

/-- The gathering loop of `select_text_object`: `find_object` at each
cursor, keeping the selections whose object was found.  A raised
`IndexError` aborts the whole operation before any state is written back,
which `none` models. -/
def stoCollect (content : List Char) (ch : Char) (inner : Bool) :
    List Selection → Option (List (Int × Int))
  | [] => some []
  | sel :: rest =>
    match findObjectI content sel.head ch inner with
    | .error _ => none
    | .ok none => stoCollect content ch inner rest
    | .ok (some b) => (stoCollect content ch inner rest).map (b :: ·)

/-- Model of `MultiCursorManager.select_text_object`. -/
def selectTextObject (content : List Char) (ch : Char) (inner : Bool)
    (sels : List Selection) : List Selection :=
  match stoCollect content ch inner sels with
  | none => sels
  | some spans =>
    let ns := buildSels true spans
    if ns ≠ [] then ns else sels

/-- Model of `MultiCursorManager.add_cursor_above`. -/
def addCursorAbove (content : List Char) (sels : List Selection) : List Selection :=
  let primary := primarySelection sels
  let lineStart := pyRfind content '\n' 0 primary.head
  if lineStart = -1 then sels
  else
    let pls := pyRfind content '\n' 0 lineStart
    let prevLineStart : Int := if pls = -1 then 0 else pls + 1
    let column := primary.head - lineStart - 1
    let f := pyFindFrom content '\n' prevLineStart
    let prevLineEnd : Int := if f = -1 then content.length else f
    let newPos := min (prevLineStart + column) (prevLineEnd - 1)
    addSelection newPos newPos false sels

/-- Model of `MultiCursorManager.add_cursor_below`. -/
def addCursorBelow (content : List Char) (sels : List Selection) : List Selection :=
  let primary := primarySelection sels
  let lineEnd := pyFindFrom content '\n' primary.head
  if lineEnd = -1 then sels
  else
    let nextLineStart := lineEnd + 1
    let g := pyFindFrom content '\n' nextLineStart
    let nextLineEnd : Int := if g = -1 then content.length else g
    let ls := pyRfind content '\n' 0 primary.head
    let lineStart : Int := if ls = -1 then 0 else ls + 1
    let column := primary.head - lineStart
    let newPos := min (nextLineStart + column) (nextLineEnd - 1)
    addSelection newPos newPos false sels

/-- Model of `MultiCursorManager.flip_selections`: swap anchor and head everywhere. -/
def flipSelections (sels : List Selection) : List Selection :=
  sels.map fun s => ⟨s.head, s.anchor, s.primary⟩

/-- Stable insertion (ascending by `start`) matching Python's stable
`sorted(..., key=lambda s: s.start)`. -/
def insertByStart (x : Selection) : List Selection → List Selection
  | [] => [x]
  | y :: ys => if x.start ≤ y.start then x :: y :: ys else y :: insertByStart x ys

/-- Stable sort ascending by `start`. -/
def sortByStart : List Selection → List Selection
  | [] => []
  | x :: xs => insertByStart x (sortByStart xs)

/-- The coalescing loop of `merge_consecutive_selections`: overlapping or
touching ranges merge, with the merged selection taking
`Selection(last.start, max(last.end, sel.end), last.primary or sel.primary)`. -/
def mergeRun (cur : Selection) : List Selection → List Selection
  | [] => [cur]
  | s :: rest =>
    if s.start ≤ cur.stop then
      mergeRun ⟨cur.start, max cur.stop s.stop, cur.primary || s.primary⟩ rest
    else cur :: mergeRun s rest

/-- Model of `MultiCursorManager.merge_consecutive_selections`. -/
def mergeConsecutiveSelections (sels : List Selection) : List Selection :=
  if sels.length < 2 then sels
  else
    match sortByStart sels with
    | [] => sels
    | x :: rest =>
      let merged := mergeRun x rest
      if merged.any (·.primary) then merged else setHeadPrimary merged

/-! Section: `helix_mode.SurroundManager` -/

/-- Model of `SurroundManager.PAIRS` as a lookup: the open/close pair for a surround
character, or the character doubled when it is not a known pair. -/
def surroundPair (ch : Char) : Char × Char :=
  if ch = '(' ∨ ch = ')' then ('(', ')')
  else if ch = '[' ∨ ch = ']' then ('[', ']')
  else if ch = '{' ∨ ch = '}' then ('{', '}')
  else if ch = '<' ∨ ch = '>' then ('<', '>')
  else if ch = '"' then ('"', '"')
  else if ch = squoteC then (squoteC, squoteC)
  else if ch = btickC then (btickC, btickC)
  else if ch = 't' then ('<', '>')
  else (ch, ch)

/-- Whether `ch` is a key of `SurroundManager.PAIRS`. -/
def inSurroundPairs (ch : Char) : Bool :=
  ch = '(' ∨ ch = ')' ∨ ch = '[' ∨ ch = ']' ∨ ch = '{' ∨ ch = '}' ∨
  ch = '<' ∨ ch = '>' ∨ ch = '"' ∨ ch = squoteC ∨ ch = btickC ∨ ch = 't'

/-- Model of `SurroundManager.add_surround`. -/
def addSurround (content : List Char) (sel : Selection) (ch : Char) : List Char :=
  if ch = 't' then
    pyTake content sel.start
      ++ "<tag>".data ++ pySlice content sel.start sel.stop ++ "</tag>".data
      ++ pyDrop content sel.stop
  else
    let p := if inSurroundPairs ch then surroundPair ch else (ch, ch)
    pyTake content sel.start
      ++ [p.1] ++ pySlice content sel.start sel.stop ++ [p.2]
      ++ pyDrop content sel.stop

/-- Model of `SurroundManager.delete_surround`: locate the *around* bounds with
`find_object` and splice out the two delimiter characters; when the pair is
not found the text is returned unchanged. -/
def deleteSurround (content : List Char) (sel : Selection) (ch : Char) :
    Except PyErr (List Char) :=
  match findObjectI content sel.head ch false with
  | .error e => .error e
  | .ok none => .ok content
  | .ok (some (b0, b1)) =>
    .ok (pyTake content b0 ++ pySlice content (b0 + 1) (b1 - 1) ++ pyDrop content b1)

/-- Model of `SurroundManager.change_surround`. -/
def changeSurround (content : List Char) (sel : Selection) (oldCh newCh : Char) :
    Except PyErr (List Char) :=
  match findObjectI content sel.head oldCh false with
  | .error e => .error e
  | .ok none => .ok content
  | .ok (some (b0, b1)) =>
    let p := if inSurroundPairs newCh then surroundPair newCh else (newCh, newCh)
    .ok (pyTake content b0 ++ [p.1] ++ pySlice content (b0 + 1) (b1 - 1)
      ++ [p.2] ++ pyDrop content b1)

/-! Section: `helix_mode.HelixFeatures.apply_to_selections` -/

/-- Stable insertion (descending by `start`) matching Python's stable
`sorted(..., key=lambda s: s.start, reverse=True)`. -/
def insertByStartDesc (x : Selection) : List Selection → List Selection
  | [] => [x]
  | y :: ys => if y.start ≤ x.start then x :: y :: ys else y :: insertByStartDesc x ys

/-- Stable sort descending by `start`. -/
def sortByStartDesc : List Selection → List Selection
  | [] => []
  | x :: xs => insertByStartDesc x (sortByStartDesc xs)

/-- Model of `HelixFeatures.apply_to_selections`: apply `transform` to every
selection's content, processing selections in descending start order; the
returned value is the final text (the head updates the Python code also
performs only mutate the selection objects, not the result). -/
def applyToSelections (content : List Char) (transform : List Char → List Char)
    (sels : List Selection) : List Char :=
  (sortByStartDesc sels).foldl
    (fun c sel =>
      pyTake c sel.start ++ transform (pySlice c sel.start sel.stop)
        ++ pyDrop c sel.stop)
    content


/-! Section: `vim_mode.py`: data model -/

/-- Model of `config.EditorMode`. -/
inductive EditorMode where
  | NORMAL | INSERT | VISUAL | VISUAL_LINE | VISUAL_BLOCK | COMMAND | REPLACE
deriving DecidableEq, Repr

/-- Python values appearing in the action dictionaries the engine emits. -/
inductive PyVal where
  | str (s : List Char)
  | int (n : Int)
  | bool (b : Bool)
  | none
deriving DecidableEq, Repr

/-- An action dictionary `{...}` returned by the engine, as an ordered list
of key/value pairs (insertion order, as in a Python `dict`). -/
def ActionDict := List (String × PyVal)
deriving instance DecidableEq for ActionDict

/-- Lift `Optional[str]` to a dictionary value. -/
def optStrL : Option (List Char) → PyVal
  | some s => .str s
  | none => .none

/-- Lift an optional `String` to a dictionary value. -/
def optStrS : Option String → PyVal
  | some s => .str s.data
  | none => .none

/-- First value bound to `k` in an action dictionary. -/
def dictGet (d : ActionDict) (k : String) : Option PyVal :=
  (d.find? (fun p => p.1 = k)).map (·.2)

/-- Model of `vim_mode.Register`. -/
structure RegisterV where
  content : List Char := []
  linewise : Bool := false
deriving DecidableEq, Repr

/-- Model of `vim_mode.CommandState`. -/
structure CommandStateM where
  buffer : List Char := []
  cursorPos : Nat := 0
  history : List (List Char) := []
  historyIndex : Int := -1
deriving DecidableEq, Repr

/-- The key-handling state of `VimMode`: current and previous mode, the
count/operator/motion/key-sequence accumulators, the command-line state and
the visual-selection anchor.  (Registers, marks, macros and search state
live in separate stores and are modelled separately.) -/
structure VimState where
  mode : EditorMode := .NORMAL
  previousMode : Option EditorMode := none
  countBuffer : String := ""
  operatorPending : Option String := none
  motionBuffer : String := ""
  keySequence : String := ""
  commandState : CommandStateM := {}
  selectionAnchor : Option (Int × Int) := none
deriving DecidableEq, Repr

/-- The state `VimMode.__init__` sets up. -/
def initVimState : VimState := {}

/-- Key modifiers passed to `handle_key`; only `ctrl` is ever read. -/
structure Mods where
  ctrl : Bool := false
deriving DecidableEq, Repr

/-- Model of `VimMode.enter_mode`: a transition to a different mode records the
previous mode and resets the count/operator/key-sequence/motion
accumulators; entering the current mode is a no-op. -/
def enterMode (st : VimState) (m : EditorMode) : VimState :=
  if st.mode = m then st
  else
    { st with
      previousMode := some st.mode, mode := m,
      countBuffer := "", operatorPending := none,
      keySequence := "", motionBuffer := "" }

/-- Model of `VimMode.enter_normal_mode`: also drops the selection anchor. -/
def enterNormalMode (st : VimState) : VimState :=
  { enterMode st .NORMAL with selectionAnchor := none }

/-- Model of `VimMode.enter_command_mode`: fresh command state, then the mode
transition. -/
def enterCommandMode (st : VimState) : VimState :=
  enterMode { st with commandState := {} } .COMMAND

/-! Section: `vim_mode.py`: key lookup tables -/

/-- Lookup in a Python `dict` literal given as an association list: a later
binding for the same key wins (`dict` literals with duplicated keys keep the
last value). -/
def pyDictLookup {α : Type} (l : List (String × α)) (k : String) : Option α :=
  (l.reverse.find? (fun p => p.1 = k)).map (·.2)

/-- Model of `single_char_map` of `VimMode._lookup_action`, in source order
(including the duplicated `zz` binding). -/
def singleCharMap : List (String × String) :=
  [("i", "enter_insert_mode"), ("I", "insert_line_start"), ("a", "insert_after"),
   ("A", "insert_line_end"), ("o", "insert_line_below"), ("O", "insert_line_above"),
   ("v", "enter_visual_mode"), ("V", "enter_visual_line_mode"),
   ("s", "substitute_char"), ("S", "substitute_line"),
   ("x", "delete_char"), ("X", "delete_char_before"),
   ("r", "replace_char_prompt"), ("R", "enter_replace_mode"),
   ("p", "paste_after"), ("P", "paste_before"), ("J", "join_lines"),
   ("~", "toggle_case_and_move"), ("u", "undo"), ("U", "undo_line"),
   (".", "repeat_last_edit"), ("@", "execute_macro"), ("q", "record_macro"),
   ("m", "set_mark"), (squoteC.toString, "goto_mark_line"),
   (btickC.toString, "goto_mark_exact"), (":", "enter_command_mode"),
   ("/", "search_forward"), ("?", "search_backward"),
   ("n", "search_next"), ("N", "search_prev"),
   ("*", "search_word_forward"), ("#", "search_word_backward"),
   ("%", "match_bracket"), ("zz", "center_cursor"), ("zt", "cursor_top"),
   ("zb", "cursor_bottom"), ("z.", "center_cursor_first_char"),
   ("z-", "cursor_bottom_first_char"), ("z<CR>", "cursor_top_first_char"),
   ("zz", "center_view"), ("zj", "next_fold"), ("zk", "prev_fold"),
   ("zo", "open_fold"), ("zc", "close_fold"), ("za", "toggle_fold"),
   ("zr", "open_all_folds"), ("zm", "close_all_folds")]

/-- Model of `two_char_map` of `VimMode._lookup_action`, in source order (including
the duplicated `gg` and `])` bindings). -/
def twoCharMap : List (String × String) :=
  [("dd", "delete_line"), ("cc", "change_line"), ("yy", "yank_line"),
   ("Y", "yank_to_end"), ("D", "delete_to_end"), ("C", "change_to_end"),
   ("gg", "goto_file_start"), ("G", "goto_file_end"),
   (">>", "indent_line"), ("<<", "unindent_line"), ("==", "auto_indent_line"),
   ("gd", "goto_definition"), ("gD", "goto_definition_global"),
   ("gf", "goto_file"), ("ga", "show_ascii"), ("g8", "show_utf8"),
   ("gg", "goto_first_line"), ("gi", "goto_last_insert"),
   ("gI", "insert_line_start"), ("gh", "select_mode"),
   ("gn", "select_next_match"), ("gN", "select_prev_match"),
   ("ge", "word_end_backward"), ("gE", "WORD_end_backward"),
   ("gu", "make_lowercase_motion"), ("gU", "make_uppercase_motion"),
   ("g~", "toggle_case_motion"), ("gq", "format_motion"),
   ("gw", "format_motion_keep_cursor"), ("gx", "open_url"),
   ("[[", "prev_section"), ("]]", "next_section"),
   ("[]", "prev_section_end"), ("][", "next_section_end"),
   ("[(", "prev_unmatched_open_brace"), ("])", "next_unmatched_close_brace"),
   ("[\x7b", "prev_unmatched_open_brace"), ("]\x7d", "next_unmatched_close_brace"),
   ("[m", "prev_method_start"), ("]m", "next_method_start"),
   ("[M", "prev_method_end"), ("]M", "next_method_end"),
   ("[*", "prev_comment"), ("]*", "next_comment"),
   ("[(]", "prev_open_paren"), ("])", "next_close_paren")]

/-- The `objects` table of the text-object branch of `_lookup_action`. -/
def textObjName (c : Char) : Option String :=
  if c = '"' then some "double_quote"
  else if c = squoteC then some "single_quote"
  else if c = btickC then some "backtick"
  else if c = '(' ∨ c = ')' then some "parentheses"
  else if c = '[' ∨ c = ']' then some "brackets"
  else if c = '{' ∨ c = '}' then some "braces"
  else if c = '<' ∨ c = '>' then some "angle_brackets"
  else if c = 't' then some "tag"
  else if c = 'w' then some "word"
  else if c = 'W' then some "WORD"
  else if c = 's' then some "sentence"
  else if c = 'p' then some "paragraph"
  else if c = 'b' ∨ c = 'B' then some "block"
  else if c = 'i' then some "indent"
  else none

/-- The `motion_map` of the operator+motion branch of `_lookup_action`
(`motion_map.get(sequence[1], sequence[1])`). -/
def motionName (c : Char) : String :=
  if c = 'w' then "word" else if c = 'W' then "WORD"
  else if c = 'e' then "word_end" else if c = 'E' then "WORD_end"
  else if c = 'b' then "word_back" else if c = 'B' then "WORD_back"
  else if c = '$' then "line_end" else if c = '0' then "line_start"
  else if c = '^' then "first_non_whitespace"
  else c.toString

/-- Model of `VimMode._lookup_action`: the single-character table, then the
two-character table, then the generative operator grammars
`{c,d,y}{w,W,e,E,b,B,$,0,^}` and `{c,d,y}{i,a}{object}`. -/
def lookupAction (seq : String) : Option String :=
  match pyDictLookup singleCharMap seq with
  | some a => some a
  | none =>
    match pyDictLookup twoCharMap seq with
    | some a => some a
    | none =>
      match seq.data with
      | c0 :: c1 :: rest =>
        if c0 = 'c' ∨ c0 = 'd' ∨ c0 = 'y' then
          if rest = [] ∧ (c1 = 'w' ∨ c1 = 'W' ∨ c1 = 'e' ∨ c1 = 'E' ∨ c1 = 'b' ∨
              c1 = 'B' ∨ c1 = '$' ∨ c1 = '0' ∨ c1 = '^') then
            some (c0.toString ++ "_motion_" ++ motionName c1)
          else
            match rest with
            | [c2] =>
              if c1 = 'i' ∨ c1 = 'a' then
                match textObjName c2 with
                | some objName =>
                  some (c0.toString ++ (if c1 = 'i' then "_inner_" else "_around_")
                    ++ objName)
                | none => none
              else none
            | _ => none
        else none
      | _ => none

/-- Model of `VimMode._is_operator`: Python substring membership
`key in 'cdy><g~gu gUgqgwg!?'` (note that this is a *substring* test on the
literal, so multi-character keys like `gu` and the space character also
pass it). -/
def isOperatorKey (key : String) : Bool :=
  decide (key.data <:+: ("cdy><g~gu gUgqgwg!?".data))

/-- The hardcoded `all_sequences` list of `VimMode._has_partial_match`. -/
def allSequences : List String :=
  ["gg", "gd", "gD", "gf", "ga", "g8", "gi", "gI", "gh", "gn", "gN",
   "ge", "gE", "gu", "gU", "g~", "gq", "gw", "gx",
   "dd", "cc", "yy", ">>", "<<", "==",
   "ci", "ca", "di", "da", "yi", "ya",
   "[[", "]]", "[]", "][",
   "[(", "])", "[\x7b", "]\x7d", "[m", "]m", "[M", "]M",
   "zj", "zk", "zo", "zc", "za", "zr", "zm"]

/-- Model of `VimMode._has_partial_match`: is the sequence a strict prefix of some
entry of the hardcoded list? -/
def hasPartialKeyMatch (seq : String) : Bool :=
  allSequences.any (fun s => seq.data.isPrefixOf s.data ∧ s ≠ seq)

/-- Python `int()` on the digit-only strings the count accumulator can
hold. -/
def pyIntOfDigits (s : String) : Int :=
  s.data.foldl (fun a c => a * 10 + ((c.toNat : Int) - 48)) 0

/-- Model of `VimMode._execute_action`: wrap an action name together with the count
(`int(count_buffer)` defaulting to 1) and the pending operator. -/
def executeAction (st : VimState) (action : String) : ActionDict :=
  [("action", .str action.data),
   ("count", .int (if st.countBuffer = "" then 1 else pyIntOfDigits st.countBuffer)),
   ("operator", optStrS st.operatorPending)]

/-! Section: `vim_mode.py`: ex-command parsing -/

/-- Python `cmd.split(None, 1)` on a pre-stripped command line: the first
whitespace-delimited token and the remainder (with the delimiter run
removed). -/
def pySplitNone1 (s : List Char) : List Char × List Char :=
  let s1 := s.dropWhile isPySpace
  let tok := s1.takeWhile (fun c => ¬ isPySpace c)
  (tok, (s1.drop tok.length).dropWhile isPySpace)

/-- Whether a remainder satisfies the `$` anchor of `re.match`: the end of
the string, or the position just before a final newline. -/
def reAtEnd (l : List Char) : Bool := l = [] ∨ l = ['\n']

/-- The flag-character class `[giI]` of the substitute regex. -/
def isSubstFlag (c : Char) : Bool := c = 'g' ∨ c = 'i' ∨ c = 'I'

/-- The lazy `(.*?)(?:\1([giI]+))?$` part of the substitute regex, operating
after the second delimiter: at each candidate replacement length, first try
the (greedy, hence preferred) optional flags group, then the bare `$`, and
only then extend the replacement by one (non-newline) character. -/
def substGoRep (d : Char) : List Char → List Char → Option (List Char × Option (List Char))
  | [], acc => some (acc.reverse, none)
  | c :: cs, acc =>
    if c = d ∧
        ((cs.takeWhile isSubstFlag) ≠ [] ∧
          reAtEnd (cs.drop (cs.takeWhile isSubstFlag).length)) then
      some (acc.reverse, some (cs.takeWhile isSubstFlag))
    else if c :: cs = ['\n'] then some (acc.reverse, none)
    else if c = '\n' then none
    else substGoRep d cs (c :: acc)

/-- The lazy `(.*?)\1` pattern part of the substitute regex: at each
candidate pattern length, if the next character is the delimiter try to
complete the match, otherwise (or on failure) extend the pattern by one
non-newline character. -/
def substGoPat (d : Char) : List Char → List Char →
    Option (List Char × List Char × Option (List Char))
  | [], _ => none
  | c :: cs, acc =>
    if c = d then
      match substGoRep d cs [] with
      | some (rep, fl) => some (acc.reverse, rep, fl)
      | none => if c = '\n' then none else substGoPat d cs (c :: acc)
    else if c = '\n' then none
    else substGoPat d cs (c :: acc)

/-- The regex of `_cmd_substitute`,
`^s(.)(.*?)\1(.*?)(?:\1([giI]+))?$`, with Python lazy/greedy backtracking
semantics: yields (pattern, replacement, optional flags group). -/
def substMatch (a : List Char) : Option (List Char × List Char × Option (List Char)) :=
  match a with
  | 's' :: d :: rest => if d = '\n' then none else substGoPat d rest []
  | _ => none

/-- The regex of `_cmd_global`, `^(.)(.*?)\1(.*)$`: delimiter, lazy
pattern, then the rest of the line. -/
def globGoPat (d : Char) : List Char → List Char → Option (List Char × List Char)
  | [], _ => none
  | c :: cs, acc =>
    if c = d ∧ reAtEnd (cs.drop (cs.takeWhile (· ≠ '\n')).length) then
      some (acc.reverse, cs.takeWhile (· ≠ '\n'))
    else if c = '\n' then none
    else globGoPat d cs (c :: acc)

/-- Match `^(.)(.*?)\1(.*)$` against the argument of `:g`. -/
def globalMatch (a : List Char) : Option (List Char × List Char) :=
  match a with
  | d :: rest => if d = '\n' then none else globGoPat d rest []
  | [] => none

/-- The regex of `_cmd_let`, `^(\w+)\s*=\s*(.*)$`. -/
def letMatch (a : List Char) : Option (List Char × List Char) :=
  let w := a.takeWhile isWordChar
  if w = [] then none
  else
    match (a.drop w.length).dropWhile isPySpace with
    | '=' :: r2 =>
      let r3 := r2.dropWhile isPySpace
      let v := r3.takeWhile (· ≠ '\n')
      if reAtEnd (r3.drop v.length) then some (w, v) else none
    | _ => none

/-- Python `int(...)` on a string: optional sign, at least one digit,
nothing else (after stripping whitespace); `none` models `ValueError`. -/
def pyToInt (s : List Char) : Option Int :=
  let digitsToInt : List Char → Option Int := fun ds =>
    if ds ≠ [] ∧ ds.all (·.isDigit) then
      some (ds.foldl (fun a c => a * 10 + ((c.toNat : Int) - 48)) 0)
    else none
  match pyStrip s with
  | '+' :: ds => digitsToInt ds
  | '-' :: ds => (digitsToInt ds).map Int.neg
  | ds => digitsToInt ds

/-- An ex-command handler: arguments plus the optional `start`/`end` range
kwargs, producing an action dictionary — or an `IndexError`, which
`_cmd_set` can actually raise. -/
def ExHandler := List Char → Option (List Char) → Option (List Char) →
  Except PyErr ActionDict

/-- Build an error action `{"action": "error", "message": msg}`. -/
def errorDict (msg : String) : ActionDict :=
  [("action", .str "error".data), ("message", .str msg.data)]

/-- Model of `_cmd_write`. -/
def cmdWrite : ExHandler := fun args _ _ =>
  .ok [("action", .str "save_file".data), ("path", .str args)]

/-- Model of `_cmd_write_quit`. -/
def cmdWriteQuit : ExHandler := fun args _ _ =>
  .ok [("action", .str "save_and_quit".data), ("path", .str args)]

/-- Model of `_cmd_quit`. -/
def cmdQuit : ExHandler := fun _ _ _ => .ok [("action", .str "quit".data)]

/-- Model of `_cmd_force_quit`. -/
def cmdForceQuit : ExHandler := fun _ _ _ => .ok [("action", .str "force_quit".data)]

/-- Model of `_cmd_quit_all`. -/
def cmdQuitAll : ExHandler := fun _ _ _ => .ok [("action", .str "quit_all".data)]

/-- Model of `_cmd_force_quit_all`. -/
def cmdForceQuitAll : ExHandler := fun _ _ _ =>
  .ok [("action", .str "force_quit_all".data)]

/-- Model of `_cmd_edit`. -/
def cmdEdit : ExHandler := fun args _ _ =>
  .ok [("action", .str "open_file".data), ("path", .str args)]

/-- Model of `_cmd_buffer_next`. -/
def cmdBufferNext : ExHandler := fun _ _ _ => .ok [("action", .str "next_buffer".data)]

/-- Model of `_cmd_buffer_prev`. -/
def cmdBufferPrev : ExHandler := fun _ _ _ => .ok [("action", .str "prev_buffer".data)]

/-- Model of `_cmd_buffer_close`. -/
def cmdBufferClose : ExHandler := fun _ _ _ => .ok [("action", .str "close_buffer".data)]

/-- Model of `_cmd_list_buffers`. -/
def cmdListBuffers : ExHandler := fun _ _ _ => .ok [("action", .str "list_buffers".data)]

/-- Model of `_cmd_substitute`: parse `s<delim>pattern<delim>replacement<delim>flags`
(the delimiter is whatever character follows `s`); a failed parse yields an
error action. -/
def cmdSubstitute : ExHandler := fun args s e =>
  match substMatch args with
  | some (pat, rep, fl) =>
    .ok [("action", .str "substitute".data), ("pattern", .str pat),
         ("replacement", .str rep), ("flags", .str (fl.getD [])),
         ("start", optStrL s), ("end", optStrL e)]
  | none => .ok (errorDict "Invalid substitute syntax")

/-- Model of `_cmd_substitute_all`: substitute with the whole-file range `1,$`. -/
def cmdSubstituteAll : ExHandler := fun args _ _ =>
  cmdSubstitute args (some "1".data) (some "$".data)

/-- Model of `_cmd_global`. -/
def cmdGlobal : ExHandler := fun args _ _ =>
  match globalMatch args with
  | some (pat, c) =>
    .ok [("action", .str "global".data), ("pattern", .str pat),
         ("command", .str c), ("inverse", .bool false)]
  | none => .ok (errorDict "Invalid global syntax")

/-- Model of `_cmd_global_inverse`: the global action with `inverse` set. -/
def cmdGlobalInverse : ExHandler := fun args _ _ =>
  match globalMatch args with
  | some (pat, c) =>
    .ok [("action", .str "global".data), ("pattern", .str pat),
         ("command", .str c), ("inverse", .bool true)]
  | none => .ok (errorDict "Invalid global syntax")

/-- Model of `_cmd_delete`. -/
def cmdDelete : ExHandler := fun _ s e =>
  .ok [("action", .str "delete_lines".data), ("start", optStrL s), ("end", optStrL e)]

/-- Model of `_cmd_yank`. -/
def cmdYank : ExHandler := fun args s e =>
  .ok [("action", .str "yank_lines".data), ("start", optStrL s), ("end", optStrL e),
       ("register", .str (pyStrip args))]

/-- Model of `_cmd_put`. -/
def cmdPut : ExHandler := fun args _ _ =>
  .ok [("action", .str "put".data), ("register", .str (pyStrip args))]

/-- Model of `_cmd_copy` (also bound to `t`). -/
def cmdCopy : ExHandler := fun args s e =>
  match pyToInt args with
  | some dest =>
    .ok [("action", .str "copy_lines".data), ("start", optStrL s), ("end", optStrL e),
         ("destination", .int dest)]
  | none => .ok (errorDict "Invalid destination")

/-- Model of `_cmd_move`. -/
def cmdMove : ExHandler := fun args s e =>
  match pyToInt args with
  | some dest =>
    .ok [("action", .str "move_lines".data), ("start", optStrL s), ("end", optStrL e),
         ("destination", .int dest)]
  | none => .ok (errorDict "Invalid destination")

/-- Model of `_cmd_join`. -/
def cmdJoin : ExHandler := fun _ s e =>
  .ok [("action", .str "join_lines_range".data), ("start", optStrL s), ("end", optStrL e)]

/-- Model of `_cmd_read`. -/
def cmdRead : ExHandler := fun args _ _ =>
  .ok [("action", .str "read_file".data), ("path", .str (pyStrip args))]

/-- Model of `_cmd_shell`. -/
def cmdShell : ExHandler := fun args _ _ =>
  .ok [("action", .str "shell_command".data), ("command", .str args)]

/-- Model of `_cmd_source`. -/
def cmdSource : ExHandler := fun args _ _ =>
  .ok [("action", .str "source_config".data), ("path", .str (pyStrip args))]

/-- Model of `_cmd_set`: note that with empty arguments `args.split(None, 1)` is the
empty list, `len(parts) == 1` fails, and `parts[0]` raises `IndexError`. -/
def cmdSet : ExHandler := fun args _ _ =>
  let s1 := args.dropWhile isPySpace
  let tok := s1.takeWhile (fun c => ¬ isPySpace c)
  let rest := (s1.drop tok.length).dropWhile isPySpace
  if tok = [] then .error .indexError
  else if rest = [] then .ok [("action", .str "set_option".data), ("option", .str tok)]
  else .ok [("action", .str "set_option".data), ("option", .str tok),
            ("value", .str rest)]

/-- Model of `_cmd_let`. -/
def cmdLet : ExHandler := fun args _ _ =>
  match letMatch args with
  | some (n, v) =>
    .ok [("action", .str "set_variable".data), ("name", .str n), ("value", .str v)]
  | none => .ok (errorDict "Invalid let syntax")

/-- Model of `_cmd_map`: two whitespace-separated parts make a normal-mode mapping. -/
def cmdMapKey : ExHandler := fun args _ _ =>
  let p := pySplitNone1 args
  if p.1 ≠ [] ∧ p.2 ≠ [] then
    .ok [("action", .str "map_key".data), ("key", .str p.1),
         ("command", .str p.2), ("mode", .str "normal".data)]
  else .ok (errorDict "Invalid map syntax")

/-- Model of `_cmd_nmap`. -/
def cmdNmap : ExHandler := fun args s e => cmdMapKey args s e

/-- Model of `_cmd_imap`: the map action with `mode` rewritten to `insert`. -/
def cmdImap : ExHandler := fun args _ _ =>
  let p := pySplitNone1 args
  if p.1 ≠ [] ∧ p.2 ≠ [] then
    .ok [("action", .str "map_key".data), ("key", .str p.1),
         ("command", .str p.2), ("mode", .str "insert".data)]
  else .ok (errorDict "Invalid map syntax")

/-- Model of `_cmd_vmap`: the map action with `mode` rewritten to `visual`. -/
def cmdVmap : ExHandler := fun args _ _ =>
  let p := pySplitNone1 args
  if p.1 ≠ [] ∧ p.2 ≠ [] then
    .ok [("action", .str "map_key".data), ("key", .str p.1),
         ("command", .str p.2), ("mode", .str "visual".data)]
  else .ok (errorDict "Invalid map syntax")

/-- Model of `_cmd_unmap`. -/
def cmdUnmap : ExHandler := fun args _ _ =>
  .ok [("action", .str "unmap_key".data), ("key", .str (pyStrip args))]

/-- Model of `_cmd_nohlsearch`. -/
def cmdNoh : ExHandler := fun _ _ _ =>
  .ok [("action", .str "clear_search_highlights".data)]

/-- Model of `_cmd_syntax`. -/
def cmdSyntax : ExHandler := fun args _ _ =>
  .ok [("action", .str "syntax_command".data), ("args", .str args)]

/-- Model of `_cmd_highlight`. -/
def cmdHighlight : ExHandler := fun args _ _ =>
  .ok [("action", .str "highlight_command".data), ("args", .str args)]

/-- Model of `_cmd_colorscheme`. -/
def cmdColorscheme : ExHandler := fun args _ _ =>
  .ok [("action", .str "set_colorscheme".data), ("name", .str (pyStrip args))]

/-- Model of `_cmd_tabnew` (`args.strip() if args else None`). -/
def cmdTabnew : ExHandler := fun args _ _ =>
  .ok [("action", .str "new_tab".data),
       ("path", if args ≠ [] then .str (pyStrip args) else .none)]

/-- Model of `_cmd_tabclose`. -/
def cmdTabclose : ExHandler := fun _ _ _ => .ok [("action", .str "close_tab".data)]

/-- Model of `_cmd_tabnext`. -/
def cmdTabnext : ExHandler := fun _ _ _ => .ok [("action", .str "next_tab".data)]

/-- Model of `_cmd_tabprev`. -/
def cmdTabprev : ExHandler := fun _ _ _ => .ok [("action", .str "prev_tab".data)]

/-- Model of `_cmd_vsplit`. -/
def cmdVsplit : ExHandler := fun args _ _ =>
  .ok [("action", .str "vsplit".data),
       ("path", if args ≠ [] then .str (pyStrip args) else .none)]

/-- Model of `_cmd_split`. -/
def cmdSplit : ExHandler := fun args _ _ =>
  .ok [("action", .str "hsplit".data),
       ("path", if args ≠ [] then .str (pyStrip args) else .none)]

/-- Model of `_cmd_close`. -/
def cmdClose : ExHandler := fun _ _ _ => .ok [("action", .str "close_window".data)]

/-- Model of `_cmd_only`. -/
def cmdOnly : ExHandler := fun _ _ _ =>
  .ok [("action", .str "close_other_windows".data)]

/-- Model of `_cmd_resize`. -/
def cmdResize : ExHandler := fun args _ _ =>
  .ok [("action", .str "resize_window".data), ("size", .str (pyStrip args))]

/-- Model of `_cmd_vertical_resize`. -/
def cmdVertResize : ExHandler := fun args _ _ =>
  .ok [("action", .str "vertical_resize".data), ("size", .str (pyStrip args))]

/-- Model of `_cmd_cd`. -/
def cmdCd : ExHandler := fun args _ _ =>
  .ok [("action", .str "change_directory".data), ("path", .str (pyStrip args))]

/-- Model of `_cmd_pwd`. -/
def cmdPwd : ExHandler := fun _ _ _ => .ok [("action", .str "show_directory".data)]

/-- Model of `_cmd_mkdir`. -/
def cmdMkdir : ExHandler := fun args _ _ =>
  .ok [("action", .str "make_directory".data), ("path", .str (pyStrip args))]

/-- Model of `_cmd_help`. -/
def cmdHelp : ExHandler := fun args _ _ =>
  .ok [("action", .str "show_help".data),
       ("topic", if args ≠ [] then .str (pyStrip args) else .none)]

/-- Model of `_cmd_version`. -/
def cmdVersion : ExHandler := fun _ _ _ => .ok [("action", .str "show_version".data)]

/-- The `ex_commands` dispatch table of `VimMode._init_commands`. -/
def exCommands : List (String × ExHandler) :=
  [("w", cmdWrite), ("wq", cmdWriteQuit), ("q", cmdQuit), ("q!", cmdForceQuit),
   ("qa", cmdQuitAll), ("qa!", cmdForceQuitAll), ("e", cmdEdit),
   ("bn", cmdBufferNext), ("bp", cmdBufferPrev), ("bd", cmdBufferClose),
   ("ls", cmdListBuffers), ("s", cmdSubstitute), ("%s", cmdSubstituteAll),
   ("g", cmdGlobal), ("v", cmdGlobalInverse), ("d", cmdDelete), ("y", cmdYank),
   ("pu", cmdPut), ("co", cmdCopy), ("t", cmdCopy), ("m", cmdMove), ("j", cmdJoin),
   ("r", cmdRead), ("!", cmdShell), ("so", cmdSource), ("set", cmdSet),
   ("let", cmdLet), ("map", cmdMapKey), ("nmap", cmdNmap), ("imap", cmdImap),
   ("vmap", cmdVmap), ("unmap", cmdUnmap), ("noh", cmdNoh), ("syn", cmdSyntax),
   ("hi", cmdHighlight), ("colorscheme", cmdColorscheme), ("tabnew", cmdTabnew),
   ("tabc", cmdTabclose), ("tabn", cmdTabnext), ("tabp", cmdTabprev),
   ("vsp", cmdVsplit), ("sp", cmdSplit), ("clo", cmdClose), ("on", cmdOnly),
   ("res", cmdResize), ("vert", cmdVertResize), ("cd", cmdCd), ("pwd", cmdPwd),
   ("mkdir", cmdMkdir), ("help", cmdHelp), ("version", cmdVersion)]

/-- Look up an ex-command handler by (character-list) name. -/
def lookupExCommand (name : List Char) : Option ExHandler :=
  pyDictLookup exCommands (String.mk name)

/-- Candidate matches, in preference order, for the optional leading-bound
group `(\d+|\$|\.)?` of the range regex: greedy digit runs longest first,
then `$`, then `.`, then the empty match.  Each candidate is the optional
captured group together with the remaining input. -/
def rangeBoundCands (s : List Char) : List (Option (List Char) × List Char) :=
  let run := s.takeWhile (·.isDigit)
  ((List.range run.length).map fun k =>
    let g := run.take (run.length - k)
    ((some g : Option (List Char)), s.drop g.length))
  ++ (if s.headD ' ' = '$' ∧ s ≠ [] then [(some ['$'], s.drop 1)] else [])
  ++ (if s.headD ' ' = '.' ∧ s ≠ [] then [(some ['.'], s.drop 1)] else [])
  ++ [(none, s)]

/-- Candidate matches for the optional second-bound group
`(?:,(\d+|\$|\.))?`: if a comma is present, the bound alternatives after
it, then the empty match. -/
def rangeCommaCands (s : List Char) : List (Option (List Char) × List Char) :=
  (match s with
   | ',' :: t =>
     (let run := t.takeWhile (·.isDigit)
      ((List.range run.length).map fun k =>
        let g := run.take (run.length - k)
        ((some g : Option (List Char)), t.drop g.length))
      ++ (if t.headD ' ' = '$' ∧ t ≠ [] then [(some ['$'], t.drop 1)] else [])
      ++ (if t.headD ' ' = '.' ∧ t ≠ [] then [(some ['.'], t.drop 1)] else []))
   | _ => [])
  ++ [(none, s)]

/-- The `(\w+)(.*)$` tail of the range regex: a nonempty greedy word run,
then the rest of the line (`.` does not cross a newline; `$` accepts a
final newline). -/
def rangeTail (s : List Char) : Option (List Char × List Char) :=
  let w := s.takeWhile isWordChar
  if w = [] then none
  else
    let rest := s.drop w.length
    let a := rest.takeWhile (· ≠ '\n')
    if reAtEnd (rest.drop a.length) then some (w, a) else none

/-- The full range regex of `_execute_command`,
`^(\d+|\$|\.)?(?:,(\d+|\$|\.))?(\w+)(.*)$`, with backtracking over the two
optional groups. -/
def rangeMatch (s : List Char) :
    Option (Option (List Char) × Option (List Char) × List Char × List Char) :=
  (rangeBoundCands s).findSome? fun g1 =>
    (rangeCommaCands g1.2).findSome? fun g2 =>
      (rangeTail g2.2).map fun t => (g1.1, g2.1, t.1, t.2)

/-- The parse-and-dispatch part of `VimMode._execute_command`, applied to
the stripped, nonempty command line: whitespace-split and look up the first
token; otherwise try the range regex; `none` means no handler matched. -/
def dispatchCommand (cmd : List Char) : Except PyErr (Option ActionDict) :=
  let parts := pySplitNone1 cmd
  match lookupExCommand parts.1 with
  | some h =>
    match h parts.2 none none with
    | .error e => .error e
    | .ok d => .ok (some d)
  | none =>
    match rangeMatch cmd with
    | some (s, e, name, args) =>
      match lookupExCommand name with
      | some h =>
        match h args s e with
        | .error er => .error er
        | .ok d => .ok (some d)
      | none => .ok none
    | none => .ok none

/-- The action `{"action": "command_executed", "command": cmd}` used when no
handler produced a result. -/
def commandExecutedDict (cmd : List Char) : ActionDict :=
  [("action", .str "command_executed".data), ("command", .str cmd)]

/-- Model of `VimMode._execute_command` as a function of the command-line buffer
alone: the action it returns (`None` for an empty line). -/
def executeCommandPure (buf : List Char) : Except PyErr (Option ActionDict) :=
  let cmd := pyStrip buf
  if cmd = [] then .ok none
  else
    match dispatchCommand cmd with
    | .error e => .error e
    | .ok r => .ok (some (r.getD (commandExecutedDict cmd)))

/-- Model of `VimMode._execute_command` on the full state: push the command line to
the (deduplicated, capped) history, dispatch, and return to normal mode. -/
def execCommandState (st : VimState) : Except PyErr (Option ActionDict × VimState) :=
  let cmd := pyStrip st.commandState.buffer
  if cmd = [] then .ok (none, enterNormalMode st)
  else
    let h0 := st.commandState.history
    let h1 := if cmd ∈ h0 then h0 else cmd :: h0
    let h2 := if 100 < h1.length then h1.dropLast else h1
    let st1 := { st with commandState :=
      { st.commandState with history := h2, historyIndex := -1 } }
    match dispatchCommand cmd with
    | .error e => .error e
    | .ok r => .ok (some (r.getD (commandExecutedDict cmd)), enterNormalMode st1)

/-! Section: `vim_mode.py`: per-mode key handlers -/

/-- Model of `VimMode._handle_ctrl_key`: the fixed Ctrl+key table of normal mode. -/
def handleCtrlKey (key : String) : Option ActionDict :=
  pyDictLookup
    [("f", [("action", PyVal.str "page_down".data)]),
     ("b", [("action", PyVal.str "page_up".data)]),
     ("d", [("action", PyVal.str "half_page_down".data)]),
     ("u", [("action", PyVal.str "half_page_up".data)]),
     ("e", [("action", PyVal.str "scroll_line_down".data)]),
     ("y", [("action", PyVal.str "scroll_line_up".data)]),
     ("r", [("action", PyVal.str "redo".data)]),
     ("a", [("action", PyVal.str "increment_number".data)]),
     ("x", [("action", PyVal.str "decrement_number".data)]),
     ("v", [("action", PyVal.str "enter_visual_block_mode".data)]),
     ("o", [("action", PyVal.str "insert_line_above_and_enter".data)]),
     ("n", [("action", PyVal.str "search_next_word".data)])]
    key

/-- Python `str.isdigit` on a key string, for ASCII keys (Python's
`isdigit` also accepts non-ASCII digit characters, which the key-level
statements below never supply). -/
def pyIsDigit (s : String) : Bool := s.data ≠ [] ∧ s.data.all (·.isDigit)

/-- Model of `VimMode._handle_normal_key`. -/
def handleNormalKey (st : VimState) (key : String) (mods : Mods) :
    Option ActionDict × VimState :=
  if mods.ctrl then (handleCtrlKey key, st)
  else if pyIsDigit key ∧ (st.countBuffer ≠ "" ∨ key ≠ "0") then
    (none, { st with countBuffer := st.countBuffer ++ key })
  else
    let seq := st.keySequence ++ key
    match lookupAction seq with
    | some action =>
      let st1 := { st with keySequence := seq }
      (some (executeAction st1 action),
        { st1 with keySequence := "", countBuffer := "" })
    | none =>
      if isOperatorKey key then
        (none, { st with keySequence := seq, operatorPending := some key })
      else if hasPartialKeyMatch seq then
        (none, { st with keySequence := seq })
      else
        (none, { st with keySequence := "", countBuffer := "",
                         operatorPending := none })

/-- Model of `VimMode._handle_insert_key`. -/
def handleInsertKey (st : VimState) (key : String) (mods : Mods) :
    Option ActionDict × VimState :=
  if mods.ctrl ∧ key = "o" then
    (some [("action", .str "single_normal_command".data)], st)
  else if mods.ctrl ∧ key = "w" then
    (some [("action", .str "delete_word_before".data)], st)
  else if mods.ctrl ∧ key = "u" then
    (some [("action", .str "delete_to_line_start".data)], st)
  else if mods.ctrl ∧ key = "t" then
    (some [("action", .str "indent_line".data)], st)
  else if mods.ctrl ∧ key = "d" then
    (some [("action", .str "unindent_line".data)], st)
  else if mods.ctrl ∧ key = "n" then
    (some [("action", .str "completion_next".data)], st)
  else if mods.ctrl ∧ key = "p" then
    (some [("action", .str "completion_prev".data)], st)
  else if key = "Escape" ∨ (mods.ctrl ∧ key = "c") then
    (some [("action", .str "exit_insert_mode".data)], enterNormalMode st)
  else
    (some [("action", .str "insert_char".data), ("char", .str key.data)], st)

/-- The `action_map` table of `VimMode._handle_visual_key`. -/
def visualActionMap : List (String × String) :=
  [("o", "move_to_other_end"), ("O", "move_to_other_end_block"),
   ("gv", "reselect_last"), ("J", "join_selection_lines"),
   ("u", "selection_to_lowercase"), ("U", "selection_to_uppercase"),
   (">", "indent_selection"), ("<", "unindent_selection"),
   ("=", "auto_indent_selection")]

/-- Model of `VimMode._key_to_motion`: map `h`/`j`/`k`/`l` to a motion
name, anything else to itself. -/
def keyToMotion (key : String) : String :=
  if key = "h" then "left" else if key = "j" then "down"
  else if key = "k" then "up" else if key = "l" then "right" else key

/-- Model of `VimMode._handle_visual_key`.  Python's movement test
`key in 'hjkl'` is a *substring* test (also true of the empty key and of
multi-character substrings such as `jk`), modelled as such. -/
def handleVisualKey (st : VimState) (key : String) (mods : Mods) :
    Option ActionDict × VimState :=
  if key = "Escape" ∨ (mods.ctrl ∧ key = "c") then
    (some [("action", .str "clear_selection".data)], enterNormalMode st)
  else if key.data <:+: "hjkl".data then
    (some [("action", .str ("extend_" ++ keyToMotion key).data)], st)
  else if key = "d" ∨ key = "x" then (some (executeAction st "delete_selection"), st)
  else if key = "y" then (some (executeAction st "yank_selection"), st)
  else if key = "c" then (some (executeAction st "change_selection"), st)
  else if key = "r" then
    (some [("action", .str "replace_selection".data), ("await_char", .bool true)],
      enterMode st .NORMAL)
  else
    match pyDictLookup visualActionMap key with
    | some a => (some [("action", .str a.data)], st)
    | none => (none, st)

/-- Model of `VimMode._handle_command_key`. -/
def handleCommandKey (st : VimState) (key : String) (mods : Mods) :
    Except PyErr (Option ActionDict × VimState) :=
  if key = "Escape" ∨ (mods.ctrl ∧ key = "c") then
    .ok (none, enterNormalMode st)
  else if key = "Return" then execCommandState st
  else if key = "BackSpace" then
    let cs := st.commandState
    if 0 < cs.cursorPos then
      .ok (none, { st with commandState :=
        { cs with
          buffer := cs.buffer.take (cs.cursorPos - 1) ++ cs.buffer.drop cs.cursorPos,
          cursorPos := cs.cursorPos - 1 } })
    else if cs.buffer = [] then .ok (none, enterNormalMode st)
    else .ok (none, st)
  else if key = "Left" then
    let cs := st.commandState
    if 0 < cs.cursorPos then
      .ok (none, { st with commandState := { cs with cursorPos := cs.cursorPos - 1 } })
    else .ok (none, st)
  else if key = "Right" then
    let cs := st.commandState
    if cs.cursorPos < cs.buffer.length then
      .ok (none, { st with commandState := { cs with cursorPos := cs.cursorPos + 1 } })
    else .ok (none, st)
  else if key = "Up" then
    let cs := st.commandState
    if cs.history ≠ [] ∧ cs.historyIndex < (cs.history.length : Int) - 1 then
      let idx := cs.historyIndex + 1
      let b := cs.history.getD idx.toNat []
      .ok (none, { st with commandState :=
        { cs with historyIndex := idx, buffer := b, cursorPos := b.length } })
    else .ok (none, st)
  else if key = "Down" then
    let cs := st.commandState
    if 0 < cs.historyIndex then
      let idx := cs.historyIndex - 1
      let b := cs.history.getD idx.toNat []
      .ok (none, { st with commandState :=
        { cs with historyIndex := idx, buffer := b, cursorPos := b.length } })
    else if cs.historyIndex = 0 then
      .ok (none, { st with commandState :=
        { cs with historyIndex := -1, buffer := [], cursorPos := 0 } })
    else
      .ok (none, { st with commandState :=
        { cs with cursorPos := cs.buffer.length } })
  else if key = "Tab" then
    .ok (some [("action", .str "command_complete".data)], st)
  else if key.data.length = 1 then
    let cs := st.commandState
    .ok (none, { st with commandState :=
      { cs with
        buffer := cs.buffer.take cs.cursorPos ++ key.data ++ cs.buffer.drop cs.cursorPos,
        cursorPos := cs.cursorPos + 1 } })
  else .ok (none, st)

/-- Model of `VimMode._handle_replace_key`. -/
def handleReplaceKey (st : VimState) (key : String) (_mods : Mods) :
    Option ActionDict × VimState :=
  if key = "Escape" then (none, enterNormalMode st)
  else (some [("action", .str "replace_char".data), ("char", .str key.data)], st)

/-- Model of `VimMode.handle_key`: dispatch on the current mode.  The result is in
`Except PyErr` because the command-mode path can raise (see `cmdSet`). -/
def handleKey (st : VimState) (key : String) (mods : Mods) :
    Except PyErr (Option ActionDict × VimState) :=
  match st.mode with
  | .INSERT => .ok (handleInsertKey st key mods)
  | .NORMAL => .ok (handleNormalKey st key mods)
  | .VISUAL => .ok (handleVisualKey st key mods)
  | .VISUAL_LINE => .ok (handleVisualKey st key mods)
  | .VISUAL_BLOCK => .ok (handleVisualKey st key mods)
  | .COMMAND => handleCommandKey st key mods
  | .REPLACE => .ok (handleReplaceKey st key mods)

/-- Feed a list of keys (no modifiers) one after another, keeping the last
key's result. -/
def handleKeys (st : VimState) (keys : List String) :
    Except PyErr (Option ActionDict × VimState) :=
  match keys with
  | [] => .ok (none, st)
  | [k] => handleKey st k {}
  | k :: rest =>
    match handleKey st k {} with
    | .error e => .error e
    | .ok (_, st1) => handleKeys st1 rest

/-! Section: `vim_mode.py`: registers -/

/-- A Python `dict` keyed by strings: lookup. -/
def assocGet {α : Type} (l : List (String × α)) (k : String) : Option α :=
  (l.find? (fun p => p.1 = k)).map (·.2)

/-- A Python `dict` keyed by strings: assignment `d[k] = v` (updates in
place when present, appends otherwise). -/
def assocSet {α : Type} (l : List (String × α)) (k : String) (v : α) :
    List (String × α) :=
  if l.any (fun p => p.1 = k) then
    l.map (fun p => if p.1 = k then (k, v) else p)
  else l ++ [(k, v)]

/-- The register map `VimMode.__init__` builds: the unnamed register `""`,
then `a`–`z`, then `0`–`9`, all empty. -/
def initRegisters : List (String × RegisterV) :=
  ("", {}) ::
    ((List.range 26).map fun i => ((Char.ofNat (97 + i)).toString, ({} : RegisterV)))
    ++ ((List.range 10).map fun i => ((Char.ofNat (48 + i)).toString, ({} : RegisterV)))

/-- Model of `VimMode.set_register`: update the named register only if it already
exists, and mirror every non-unnamed write into the unnamed register. -/
def setRegister (regs : List (String × RegisterV)) (name : String)
    (content : List Char) (linewise : Bool) : List (String × RegisterV) :=
  let r1 := if (assocGet regs name).isSome then assocSet regs name ⟨content, linewise⟩
            else regs
  if name ≠ "" then assocSet r1 "" ⟨content, linewise⟩ else r1

/-- Model of `VimMode.get_register`: `registers.get(name, registers.get(""))`. -/
def getRegister (regs : List (String × RegisterV)) (name : String) :
    Option RegisterV :=
  match assocGet regs name with
  | some r => some r
  | none => assocGet regs ""


/-! Section: Remaining definitions used by the statements below -/

/-- Number of selections with `primary=true`. -/
def countPrimary (l : List Selection) : Nat := (l.filter (·.primary)).length

/-- Model of `1` when the selection is primary, else `0`. -/
def cpOne (s : Selection) : Nat := if s.primary then 1 else 0

/-- The states of `MultiCursorManager.selections` reachable from the initial
state through the public structural operations (the regex of
`split_selection_by_regex` ranges over all possible per-selection match
lists). -/
inductive ReachableSel : List Selection → Prop where
  | init : ReachableSel initSelections
  | add (a h : Int) (p : Bool) {s : List Selection} :
      ReachableSel s → ReachableSel (addSelection a h p s)
  | remove (i : Nat) {s : List Selection} :
      ReachableSel s → ReachableSel (removeSelection i s)
  | clear {s : List Selection} : ReachableSel s → ReachableSel (clearSelections s)
  | selAll (n : Nat) {s : List Selection} :
      ReachableSel s → ReachableSel (selectAll n)
  | splitLine (content : List Char) {s : List Selection} :
      ReachableSel s → ReachableSel (splitSelectionByLine content s)
  | splitRegex (rxMatches : Selection → List (Nat × Nat)) {s : List Selection} :
      ReachableSel s → ReachableSel (splitSelectionByRegex rxMatches s)
  | selObj (content : List Char) (ch : Char) (inner : Bool) {s : List Selection} :
      ReachableSel s → ReachableSel (selectTextObject content ch inner s)
  | cursorAbove (content : List Char) {s : List Selection} :
      ReachableSel s → ReachableSel (addCursorAbove content s)
  | cursorBelow (content : List Char) {s : List Selection} :
      ReachableSel s → ReachableSel (addCursorBelow content s)
  | flip {s : List Selection} : ReachableSel s → ReachableSel (flipSelections s)
  | merge {s : List Selection} :
      ReachableSel s → ReachableSel (mergeConsecutiveSelections s)

/-- A reachable selection set with no primary selection: remove the only
(primary) selection, then add a non-primary one. -/
def badSelectionSet : List Selection :=
  addSelection 1 2 false (removeSelection 0 initSelections)

/-- Register maps reachable from the initial register store through
`set_register`. -/
inductive ReachableRegs : List (String × RegisterV) → Prop where
  | init : ReachableRegs initRegisters
  | set (name : String) (content : List Char) (lw : Bool)
      {r : List (String × RegisterV)} :
      ReachableRegs r → ReachableRegs (setRegister r name content lw)

/-- A state sitting in command mode with the given command-line buffer. -/
def commandModeState (b : String) : VimState :=
  { initVimState with mode := .COMMAND, commandState := { buffer := b.data } }

/-- Whether the range-regex parse of a command line (if any) names a
command absent from the dispatch table. -/
def rangeNameUnknownB (cmd : List Char) : Bool :=
  match rangeMatch cmd with
  | none => true
  | some r => (lookupExCommand r.2.2.1).isNone

/-! Section: Lemmas: the primary-selection invariant -/

theorem countPrimary_nil : countPrimary [] = 0 := rfl

theorem countPrimary_cons (x : Selection) (l : List Selection) :
    countPrimary (x :: l) = cpOne x + countPrimary l := by
  cases hx : x.primary <;>
    simp [countPrimary, cpOne, List.filter_cons, hx, Nat.add_comm]

theorem countPrimary_append (a b : List Selection) :
    countPrimary (a ++ b) = countPrimary a + countPrimary b := by
  simp [countPrimary, List.filter_append]

theorem countPrimary_map_clearPrimary (l : List Selection) :
    countPrimary (l.map clearPrimary) = 0 := by
  induction l with
  | nil => rfl
  | cons x xs ih => simp [List.map_cons, countPrimary_cons, clearPrimary, cpOne, ih]

theorem countPrimary_buildSels_false (l : List (Int × Int)) :
    countPrimary (buildSels false l) = 0 := by
  induction l with
  | nil => rfl
  | cons p rest ih =>
    obtain ⟨a, h⟩ := p
    simp [buildSels, countPrimary_cons, cpOne, ih]

theorem countPrimary_buildSels_true_le (l : List (Int × Int)) :
    countPrimary (buildSels true l) ≤ 1 := by
  cases l with
  | nil => exact Nat.zero_le 1
  | cons p rest =>
    obtain ⟨a, h⟩ := p
    simp [buildSels, countPrimary_cons, cpOne, countPrimary_buildSels_false]

theorem countPrimary_setHeadPrimary_le (l : List Selection)
    (h : countPrimary l = 0) : countPrimary (setHeadPrimary l) ≤ 1 := by
  cases l with
  | nil => exact Nat.zero_le 1
  | cons x xs =>
    rw [countPrimary_cons] at h
    rw [setHeadPrimary, countPrimary_cons]
    have hx : cpOne ({ x with primary := true } : Selection) = 1 := by simp [cpOne]
    omega

theorem countPrimary_eraseIdx (l : List Selection) :
    ∀ (i : Nat) (h : i < l.length),
      countPrimary l = countPrimary (l.eraseIdx i) + cpOne (l.get ⟨i, h⟩) := by
  induction l with
  | nil => intro i h; exact absurd h (Nat.not_lt_zero i)
  | cons x xs ih =>
    intro i h
    cases i with
    | zero => simp [List.eraseIdx, countPrimary_cons, Nat.add_comm]
    | succ j =>
      have hj : j < xs.length := Nat.lt_of_succ_lt_succ h
      simp [List.eraseIdx, countPrimary_cons, ih j hj, Nat.add_assoc]

theorem countPrimary_of_any_false (l : List Selection)
    (h : l.any (·.primary) = false) : countPrimary l = 0 := by
  induction l with
  | nil => rfl
  | cons x xs ih =>
    simp only [List.any_cons, Bool.or_eq_false_iff] at h
    rw [countPrimary_cons, ih h.2]
    simp [cpOne, h.1]

theorem countPrimary_insertByStart (x : Selection) (l : List Selection) :
    countPrimary (insertByStart x l) = cpOne x + countPrimary l := by
  induction l with
  | nil => simp [insertByStart, countPrimary_cons, countPrimary_nil]
  | cons y ys ih =>
    by_cases hc : x.start ≤ y.start
    · simp [insertByStart, hc, countPrimary_cons]
    · simp only [insertByStart, hc, if_false, countPrimary_cons, ih]
      omega

theorem countPrimary_sortByStart (l : List Selection) :
    countPrimary (sortByStart l) = countPrimary l := by
  induction l with
  | nil => rfl
  | cons x xs ih => simp [sortByStart, countPrimary_insertByStart, ih, countPrimary_cons]

theorem cpOne_or_le (z x y : Selection) (hz : z.primary = (x.primary || y.primary)) :
    cpOne z ≤ cpOne x + cpOne y := by
  cases hx : x.primary <;> cases hy : y.primary <;>
    simp [cpOne, hz, hx, hy]

theorem countPrimary_mergeRun_le (l : List Selection) :
    ∀ cur : Selection, countPrimary (mergeRun cur l) ≤ cpOne cur + countPrimary l := by
  induction l with
  | nil =>
    intro cur
    simp [mergeRun, countPrimary_cons, countPrimary_nil]
  | cons s rest ih =>
    intro cur
    by_cases hc : s.start ≤ cur.stop
    · simp only [mergeRun, hc, if_true]
      have h1 := ih ⟨cur.start, max cur.stop s.stop, cur.primary || s.primary⟩
      have h2 : cpOne (⟨cur.start, max cur.stop s.stop, cur.primary || s.primary⟩ :
          Selection) ≤ cpOne cur + cpOne s :=
        cpOne_or_le _ cur s rfl
      rw [countPrimary_cons]
      omega
    · simp only [mergeRun, hc, if_false, countPrimary_cons]
      have h1 := ih s
      omega

theorem addSelection_cp_le (a h : Int) (p : Bool) (s : List Selection)
    (hs : countPrimary s ≤ 1) : countPrimary (addSelection a h p s) ≤ 1 := by
  cases p with
  | true =>
    simp [addSelection, countPrimary_append, countPrimary_map_clearPrimary,
      countPrimary_cons, countPrimary_nil, cpOne]
  | false =>
    simp only [addSelection, if_neg (Bool.false_ne_true), countPrimary_append,
      countPrimary_cons, countPrimary_nil]
    have : cpOne ({ anchor := a, head := h, primary := false } : Selection) = 0 := by
      simp [cpOne]
    omega

theorem removeSelection_cp_le (i : Nat) (s : List Selection)
    (hs : countPrimary s ≤ 1) : countPrimary (removeSelection i s) ≤ 1 := by
  unfold removeSelection
  dsimp only
  split
  · next hi =>
    have herase := countPrimary_eraseIdx s i hi
    split
    · next hcond =>
      have hp : (s.get ⟨i, hi⟩).primary = true := hcond.1
      have h0 : countPrimary (s.eraseIdx i) = 0 := by
        have h1 : cpOne (s.get ⟨i, hi⟩) = 1 := by unfold cpOne; rw [hp]; rfl
        omega
      exact countPrimary_setHeadPrimary_le _ h0
    · have : countPrimary (s.eraseIdx i) ≤ countPrimary s := by omega
      omega
  · exact hs

theorem clearSelections_cp_le (s : List Selection) :
    countPrimary (clearSelections s) ≤ 1 := by
  simp [clearSelections, countPrimary_cons, countPrimary_nil, cpOne]

theorem selectAll_cp_le (n : Nat) : countPrimary (selectAll n) ≤ 1 := by
  simp [selectAll, countPrimary_cons, countPrimary_nil, cpOne]

theorem splitSelectionByLine_cp_le (content : List Char) (s : List Selection)
    (hs : countPrimary s ≤ 1) :
    countPrimary (splitSelectionByLine content s) ≤ 1 := by
  unfold splitSelectionByLine
  dsimp only
  split
  · exact countPrimary_setHeadPrimary_le _ (countPrimary_map_clearPrimary _)
  · exact hs

theorem splitSelectionByRegex_cp_le (rxMatches : Selection → List (Nat × Nat))
    (s : List Selection) (hs : countPrimary s ≤ 1) :
    countPrimary (splitSelectionByRegex rxMatches s) ≤ 1 := by
  unfold splitSelectionByRegex
  dsimp only
  split
  · exact countPrimary_buildSels_true_le _
  · exact hs

theorem selectTextObject_cp_le (content : List Char) (ch : Char) (inner : Bool)
    (s : List Selection) (hs : countPrimary s ≤ 1) :
    countPrimary (selectTextObject content ch inner s) ≤ 1 := by
  unfold selectTextObject
  dsimp only
  split
  · exact hs
  · split
    · exact countPrimary_buildSels_true_le _
    · exact hs

theorem addCursorAbove_cp_le (content : List Char) (s : List Selection)
    (hs : countPrimary s ≤ 1) : countPrimary (addCursorAbove content s) ≤ 1 := by
  unfold addCursorAbove
  dsimp only
  split
  · exact hs
  · exact addSelection_cp_le _ _ _ _ hs

theorem addCursorBelow_cp_le (content : List Char) (s : List Selection)
    (hs : countPrimary s ≤ 1) : countPrimary (addCursorBelow content s) ≤ 1 := by
  unfold addCursorBelow
  dsimp only
  split
  · exact hs
  · exact addSelection_cp_le _ _ _ _ hs

theorem flipSelections_cp (s : List Selection) :
    countPrimary (flipSelections s) = countPrimary s := by
  induction s with
  | nil => rfl
  | cons x xs ih =>
    simp only [flipSelections, List.map_cons] at ih ⊢
    rw [countPrimary_cons, countPrimary_cons, ih]
    simp [cpOne]

theorem mergeConsecutiveSelections_cp_le (s : List Selection)
    (hs : countPrimary s ≤ 1) :
    countPrimary (mergeConsecutiveSelections s) ≤ 1 := by
  unfold mergeConsecutiveSelections
  dsimp only
  split
  · exact hs
  · split
    · exact hs
    · next x rest hsort =>
      have hcp : countPrimary (x :: rest) = countPrimary s := by
        rw [← hsort, countPrimary_sortByStart]
      have hrun : countPrimary (mergeRun x rest) ≤ cpOne x + countPrimary rest :=
        countPrimary_mergeRun_le rest x
      rw [countPrimary_cons] at hcp
      split
      · omega
      · next hany =>
        have h0 : countPrimary (mergeRun x rest) = 0 :=
          countPrimary_of_any_false _ (Bool.of_not_eq_true hany ▸ rfl)
        exact countPrimary_setHeadPrimary_le _ h0

/-! Section: Lemmas: slicing round-trip for `apply_to_selections` -/

theorem pyNorm_mono (len : Nat) {a b : Int} (ha : 0 ≤ a) (hab : a ≤ b) :
    pyNorm len a ≤ pyNorm len b := by
  unfold pyNorm
  rw [if_neg (not_lt.mpr ha), if_neg (not_lt.mpr (le_trans ha hab))]
  exact min_le_min (Int.toNat_le_toNat hab) (le_refl len)

theorem slice_reassemble (c : List Char) {a b : Int} (ha : 0 ≤ a) (hab : a ≤ b) :
    pyTake c a ++ pySlice c a b ++ pyDrop c b = c := by
  unfold pyTake pySlice pyDrop
  have h : pyNorm c.length a ≤ pyNorm c.length b := pyNorm_mono _ ha hab
  have h1 : c.take (pyNorm c.length a) =
      (c.take (pyNorm c.length b)).take (pyNorm c.length a) := by
    rw [List.take_take, min_eq_left h]
  rw [h1, List.take_append_drop, List.take_append_drop]

theorem applyStep_id (c : List Char) (sel : Selection)
    (h1 : 0 ≤ sel.anchor) (h2 : 0 ≤ sel.head) :
    pyTake c sel.start ++ id (pySlice c sel.start sel.stop) ++ pyDrop c sel.stop = c := by
  have ha : 0 ≤ sel.start := le_min h1 h2
  have hab : sel.start ≤ sel.stop := min_le_max
  exact slice_reassemble c ha hab

theorem mem_insertByStartDesc {x y : Selection} :
    ∀ {l : List Selection}, x ∈ insertByStartDesc y l → x = y ∨ x ∈ l
  | [], h => by
    unfold insertByStartDesc at h
    exact Or.inl (List.mem_singleton.mp h)
  | z :: zs, h => by
    unfold insertByStartDesc at h
    by_cases hc : z.start ≤ y.start
    · rw [if_pos hc] at h
      rcases List.mem_cons.mp h with h1 | h1
      · exact Or.inl h1
      · exact Or.inr h1
    · rw [if_neg hc] at h
      rcases List.mem_cons.mp h with h1 | h1
      · exact Or.inr (h1 ▸ List.mem_cons_self z zs)
      · rcases mem_insertByStartDesc h1 with h2 | h2
        · exact Or.inl h2
        · exact Or.inr (List.mem_cons_of_mem z h2)

theorem mem_sortByStartDesc {x : Selection} :
    ∀ {l : List Selection}, x ∈ sortByStartDesc l → x ∈ l
  | [], h => absurd h (List.not_mem_nil x)
  | y :: ys, h => by
    unfold sortByStartDesc at h
    rcases mem_insertByStartDesc h with h1 | h1
    · exact h1 ▸ List.mem_cons_self y ys
    · exact List.mem_cons_of_mem y (mem_sortByStartDesc h1)

theorem foldl_slice_id :
    ∀ (l : List Selection) (content : List Char),
      (∀ s ∈ l, 0 ≤ s.anchor ∧ 0 ≤ s.head) →
      l.foldl (fun c sel =>
        pyTake c sel.start ++ id (pySlice c sel.start sel.stop) ++ pyDrop c sel.stop)
        content = content := by
  intro l
  induction l with
  | nil => intro content _; rfl
  | cons x xs ih =>
    intro content h
    rw [List.foldl_cons]
    have hx := h x (List.mem_cons_self x xs)
    have hstep : pyTake content x.start ++ id (pySlice content x.start x.stop)
        ++ pyDrop content x.stop = content := applyStep_id content x hx.1 hx.2
    rw [hstep]
    exact ih content (fun s hs => h s (List.mem_cons_of_mem x hs))

/-! Section: Lemmas: the register store -/

theorem find?_append_none {α : Type} (l1 l2 : List α) (f : α → Bool)
    (h : l1.find? f = none) : (l1 ++ l2).find? f = l2.find? f := by
  induction l1 with
  | nil => rfl
  | cons x xs ih =>
    cases hx : f x with
    | true => rw [List.find?_cons_of_pos _ hx] at h; exact absurd h (by simp)
    | false =>
      rw [List.find?_cons_of_neg _ (by simp [hx])] at h
      rw [List.cons_append, List.find?_cons_of_neg _ (by simp [hx])]
      exact ih h

theorem assocGet_map_set {α : Type} (l : List (String × α)) (k : String) (v : α) :
    (l.map (fun p => if p.1 = k then (k, v) else p)).find? (fun p => p.1 = k) =
      if l.any (fun p => p.1 = k) then some (k, v) else none := by
  induction l with
  | nil => rfl
  | cons p ps ih =>
    by_cases hp : p.1 = k
    · simp only [List.map_cons, if_pos hp, List.any_cons]
      rw [List.find?_cons_of_pos _ (by simp), if_pos (by simp [hp])]
    · simp only [List.map_cons, if_neg hp, List.any_cons]
      rw [List.find?_cons_of_neg _ (by simp [hp]), ih]
      by_cases ha : ps.any (fun p => p.1 = k)
      · rw [if_pos ha, if_pos (by simp [ha])]
      · rw [if_neg ha, if_neg (by simp [hp, ha])]

theorem find?_none_of_any_false {α : Type} (l : List α) (f : α → Bool)
    (h : l.any f = false) : l.find? f = none := by
  induction l with
  | nil => rfl
  | cons x xs ih =>
    simp only [List.any_cons, Bool.or_eq_false_iff] at h
    rw [List.find?_cons_of_neg _ (by simp [h.1])]
    exact ih h.2

theorem assocGet_assocSet_self {α : Type} (l : List (String × α)) (k : String) (v : α) :
    assocGet (assocSet l k v) k = some v := by
  unfold assocGet assocSet
  by_cases ha : l.any (fun p => p.1 = k)
  · rw [if_pos ha, assocGet_map_set, if_pos ha]
    rfl
  · rw [if_neg ha]
    have hany : l.any (fun p => decide (p.1 = k)) = false := by
      cases hb : l.any (fun p => decide (p.1 = k)) with
      | false => rfl
      | true => exact absurd hb ha
    have hnone : l.find? (fun p => decide (p.1 = k)) = none :=
      find?_none_of_any_false _ _ hany
    rw [find?_append_none _ _ _ hnone]
    rw [List.find?_cons_of_pos _ (by simp)]
    rfl

theorem reachableRegs_unnamed {r : List (String × RegisterV)}
    (h : ReachableRegs r) : (assocGet r "").isSome := by
  induction h with
  | init => decide
  | set name content lw _ ih =>
    unfold setRegister
    dsimp only
    by_cases hn : name = ""
    · subst hn
      rw [if_neg (by simp)]
      rw [if_pos ih]
      rw [assocGet_assocSet_self]
      rfl
    · rw [if_pos hn, assocGet_assocSet_self]
      rfl

/-! Section: Lemmas: ex-command dispatch -/

theorem dispatchCommand_unknown (cmd : List Char)
    (h2 : (lookupExCommand (pySplitNone1 cmd).1).isNone = true)
    (h3 : rangeNameUnknownB cmd = true) :
    dispatchCommand cmd = .ok none := by
  have h2' : lookupExCommand (pySplitNone1 cmd).1 = none := by
    cases hl : lookupExCommand (pySplitNone1 cmd).1 with
    | none => rfl
    | some _ => rw [hl] at h2; exact absurd h2 (by simp)
  unfold dispatchCommand
  dsimp only
  rw [h2']
  dsimp only
  unfold rangeNameUnknownB at h3
  cases hr : rangeMatch cmd with
  | none => rfl
  | some r =>
    obtain ⟨s, e, name, args⟩ := r
    have h3' : (lookupExCommand name).isNone = true := by
      rw [hr] at h3
      exact h3
    have hname : lookupExCommand name = none := by
      cases hl : lookupExCommand name with
      | none => rfl
      | some _ => rw [hl] at h3'; exact absurd h3' (by simp)
    dsimp only
    rw [hname]

theorem execCommandState_unknown (st : VimState)
    (h1 : pyStrip st.commandState.buffer ≠ [])
    (h2 : (lookupExCommand (pySplitNone1 (pyStrip st.commandState.buffer)).1).isNone = true)
    (h3 : rangeNameUnknownB (pyStrip st.commandState.buffer) = true) :
    (execCommandState st).map (·.1) =
      .ok (some (commandExecutedDict (pyStrip st.commandState.buffer))) := by
  unfold execCommandState
  dsimp only
  rw [if_neg h1, dispatchCommand_unknown _ h2 h3]
  rfl

theorem handleKey_return_unknown (st : VimState) (mods : Mods)
    (hm : st.mode = .COMMAND)
    (h1 : pyStrip st.commandState.buffer ≠ [])
    (h2 : (lookupExCommand (pySplitNone1 (pyStrip st.commandState.buffer)).1).isNone = true)
    (h3 : rangeNameUnknownB (pyStrip st.commandState.buffer) = true) :
    (handleKey st "Return" mods).map (·.1) =
      .ok (some (commandExecutedDict (pyStrip st.commandState.buffer))) := by
  have hk : handleKey st "Return" mods = handleCommandKey st "Return" mods := by
    unfold handleKey
    rw [hm]
  rw [hk]
  unfold handleCommandKey
  have hcond : ¬(("Return" : String) = "Escape" ∨ mods.ctrl = true ∧ ("Return" : String) = "c") := by
    rintro (h | ⟨_, h⟩)
    · exact absurd h (by decide)
    · exact absurd h (by decide)
  rw [if_neg hcond, if_pos rfl]
  exact execCommandState_unknown st h1 h2 h3

/-! Section: The claims -/

/-- C7: on `"(hello)"` with the cursor at offset 3, the balanced-pair
finder returns `(1, 6)` for the inner object (spanning `hello`) and
`(0, 7)` for the around object; on the unbalanced `"(hello"` it returns
`None`. -/
theorem c7_balanced_pair_examples :
    findObjectI "(hello)".data 3 '(' true = .ok (some (1, 6)) ∧
    findObjectI "(hello)".data 3 '(' false = .ok (some (0, 7)) ∧
    findObjectI "(hello".data 3 '(' true = .ok none := by
  refine ⟨by decide, by decide, by decide⟩

/-- C2: the engine boundary is not exception-free.  `find_object` raises
`IndexError` whenever the cursor sits at the end of the buffer (in
particular on an empty buffer), because the backward scan indexes
`content[pos]`; and `handle_key` itself raises `IndexError` on Return in
command mode with the buffer `"set"`, because `_cmd_set` evaluates
`parts[0]` on the empty split of its empty argument string. -/
theorem c2_engine_raises :
    findObjectI [] 0 '(' true = .error .indexError ∧
    findObjectI "(hello)".data 7 '(' true = .error .indexError ∧
    handleKey (commandModeState "set") "Return" {} = .error .indexError := by
  refine ⟨by decide, by decide, by decide⟩

/-- C1 counterexample: from the initial normal-mode state, the keys
`3`,`d`,`d` produce `{action: "delete_line", count: 3, operator: "d"}` —
the `operator` field is `"d"`, not `null`, because the first `d` key sets
`operator_pending` before `dd` completes, and `_execute_action` copies the
pending operator into the action (and never clears it). -/
theorem c1_threeDD_operator_not_null :
    (handleKeys initVimState ["3", "d", "d"]).map (·.1) =
      .ok (some [("action", .str "delete_line".data), ("count", .int 3),
                 ("operator", .str "d".data)]) ∧
    ([("action", PyVal.str "delete_line".data), ("count", PyVal.int 3),
      ("operator", PyVal.str "d".data)] : ActionDict) ≠
      [("action", PyVal.str "delete_line".data), ("count", PyVal.int 3),
       ("operator", PyVal.none)] := by
  refine ⟨by decide, by decide⟩

/-- C1 (amended): `3dd` from the initial state yields
`{action: "delete_line", count: 3, operator: "d"}` and `dd` alone yields
`{action: "delete_line", count: 1, operator: "d"}` — the counts are as the
claim states, but the `operator` field carries the pending `"d"` rather
than `null`. -/
theorem c1_count_delete_line :
    (handleKeys initVimState ["3", "d", "d"]).map (·.1) =
      .ok (some [("action", .str "delete_line".data), ("count", .int 3),
                 ("operator", .str "d".data)]) ∧
    (handleKeys initVimState ["d", "d"]).map (·.1) =
      .ok (some [("action", .str "delete_line".data), ("count", .int 1),
                 ("operator", .str "d".data)]) := by
  refine ⟨by decide, by decide⟩

/-- C3 counterexample: Return on the command buffer `"foobar"` — an
unrecognized command name — yields
`{action: "command_executed", command: "foobar"}`, which is not an error
action (its `action` field is not `"error"`). -/
theorem c3_unknown_not_error :
    (handleKey (commandModeState "foobar") "Return" {}).map (·.1) =
      .ok (some [("action", .str "command_executed".data),
                 ("command", .str "foobar".data)]) ∧
    dictGet [("action", PyVal.str "command_executed".data),
             ("command", PyVal.str "foobar".data)] "action" ≠
      some (.str "error".data) := by
  refine ⟨by decide, by decide⟩

/-- C3 (amended): for every command-mode state whose buffer is ASCII (the
regime in which the `\d`/`\w` classes of the embedded range regex coincide
exactly with Python's Unicode-aware ones), whose stripped buffer is
nonempty, whose whitespace-delimited first token is not a recognized
ex-command, and whose range-regex parse (if any) also names no recognized
command, Return yields `{action: "command_executed", command: <buffer>}` —
an action naming the command, but not an error action. -/
theorem c3_unknown_command_executed (st : VimState) (mods : Mods)
    (hm : st.mode = .COMMAND)
    (_hascii : allAscii st.commandState.buffer = true)
    (h1 : pyStrip st.commandState.buffer ≠ [])
    (h2 : (lookupExCommand (pySplitNone1 (pyStrip st.commandState.buffer)).1).isNone = true)
    (h3 : rangeNameUnknownB (pyStrip st.commandState.buffer) = true) :
    (handleKey st "Return" mods).map (·.1) =
      .ok (some (commandExecutedDict (pyStrip st.commandState.buffer))) :=
  handleKey_return_unknown st mods hm h1 h2 h3

/-- Witness for C3: the concrete unknown command `"xyz"`. -/
theorem c3_unknown_command_executed_witness :
    (handleKey (commandModeState "xyz") "Return" {}).map (·.1) =
      .ok (some [("action", .str "command_executed".data),
                 ("command", .str "xyz".data)]) := by
  have h := c3_unknown_command_executed (commandModeState "xyz") {} rfl
    (by decide) (by decide) (by decide) (by decide)
  exact h.trans (by decide)

/-- C4: pressing Return on the command buffer `"%s/foo/bar/g"` does *not*
yield a substitute action: the dispatcher splits on whitespace, so the
whole string is looked up as a command name (and the fallback range regex
requires a `\w+` name, which `%` fails); the result is the generic
`{action: "command_executed", ...}` action.  The substitute parser itself,
when it is reached with well-formed arguments, does parse
`s<delim>pattern<delim>replacement<delim>flags` with an arbitrary
delimiter, as the second and third conjuncts show. -/
theorem c4_percent_substitute_not_dispatched :
    (handleKey (commandModeState "%s/foo/bar/g") "Return" {}).map (·.1) =
      .ok (some [("action", .str "command_executed".data),
                 ("command", .str "%s/foo/bar/g".data)]) ∧
    cmdSubstitute "s/foo/bar/g".data none none =
      .ok [("action", .str "substitute".data), ("pattern", .str "foo".data),
           ("replacement", .str "bar".data), ("flags", .str "g".data),
           ("start", PyVal.none), ("end", PyVal.none)] ∧
    cmdSubstitute "s#foo#bar#g".data (some "1".data) (some "$".data) =
      .ok [("action", .str "substitute".data), ("pattern", .str "foo".data),
           ("replacement", .str "bar".data), ("flags", .str "g".data),
           ("start", .str "1".data), ("end", .str "$".data)] := by
  refine ⟨by decide, by decide, by decide⟩

/-- C5 counterexample: from the initial normal-mode state (empty count
buffer), the key `0` produces no action at all — `handle_key` returns
`None` and resets the accumulators — rather than a line-start motion
action. -/
theorem c5_zero_returns_none :
    handleKey initVimState "0" {} = .ok (none, initVimState) := by decide

/-- C5 (amended): with a non-empty count buffer the key `0` is appended to
the count and `None` is returned; with an empty count buffer `0` is *not*
treated as a count digit — it enters the key-sequence lookup, which has no
binding for bare `0`, so `handle_key` returns `None` (the `0` line-start
motion exists only inside the operator grammar, e.g. `d0` resolves to
`d_motion_line_start`). -/
theorem c5_zero_key_asymmetry :
    (∀ (st : VimState) (mods : Mods), st.mode = .NORMAL → mods.ctrl = false →
      st.countBuffer ≠ "" →
      handleKey st "0" mods =
        .ok (none, { st with countBuffer := st.countBuffer ++ "0" })) ∧
    (∀ (st : VimState) (mods : Mods), st.mode = .NORMAL → mods.ctrl = false →
      st.countBuffer = "" → st.keySequence = "" →
      (handleKey st "0" mods).map (·.1) = .ok none) ∧
    (handleKeys initVimState ["d", "0"]).map (·.1) =
      .ok (some [("action", .str "d_motion_line_start".data), ("count", .int 1),
                 ("operator", .str "d".data)]) := by
  refine ⟨?_, ?_, by decide⟩
  · intro st mods hm hc hcb
    have hk : handleKey st "0" mods = .ok (handleNormalKey st "0" mods) := by
      unfold handleKey
      rw [hm]
    rw [hk]
    unfold handleNormalKey
    rw [if_neg (by rw [hc]; exact Bool.false_ne_true)]
    rw [if_pos ⟨by decide, Or.inl hcb⟩]
  · intro st mods hm hc hcb hks
    have hk : handleKey st "0" mods = .ok (handleNormalKey st "0" mods) := by
      unfold handleKey
      rw [hm]
    rw [hk]
    unfold handleNormalKey
    rw [if_neg (by rw [hc]; exact Bool.false_ne_true)]
    rw [if_neg (fun hand => hand.2.elim (fun hne => hne hcb) (fun hne => hne rfl))]
    dsimp only
    rw [hks]
    rw [show lookupAction ("" ++ "0") = none from by decide]
    dsimp only
    rw [if_neg (by rw [show isOperatorKey "0" = false from by decide]; exact Bool.false_ne_true)]
    rw [if_neg (by rw [show hasPartialKeyMatch ("" ++ "0") = false from by decide]; exact Bool.false_ne_true)]
    rfl

/-- Witness for C5: the first part at count buffer `"1"`, the second part
at the initial state. -/
theorem c5_zero_key_asymmetry_witness :
    handleKey { initVimState with countBuffer := "1" } "0" {} =
      .ok (none, { initVimState with countBuffer := "1" ++ "0" }) ∧
    (handleKey initVimState "0" {}).map (·.1) = .ok none := by
  refine ⟨c5_zero_key_asymmetry.1 _ {} rfl rfl (by decide),
          c5_zero_key_asymmetry.2.1 initVimState {} rfl rfl rfl rfl⟩

/-- C6 counterexample: removing the only (primary) selection empties the
set, after which `add_selection` with `primary=False` produces a non-empty
reachable state with *zero* primary selections — so "exactly one primary"
fails. -/
theorem c6_zero_primary_reachable :
    ReachableSel badSelectionSet ∧ badSelectionSet ≠ [] ∧
      countPrimary badSelectionSet ≠ 1 :=
  ⟨ReachableSel.add 1 2 false (ReachableSel.remove 0 ReachableSel.init),
   by decide, by decide⟩

/-- C6 (amended): every selection set reachable through the public
`MultiCursorManager` operations has *at most* one primary selection
(a non-empty set with none at all is reachable, see the counterexample). -/
theorem c6_at_most_one_primary (s : List Selection) (hr : ReachableSel s) :
    countPrimary s ≤ 1 := by
  induction hr with
  | init => decide
  | add a h p _ ih => exact addSelection_cp_le a h p _ ih
  | remove i _ ih => exact removeSelection_cp_le i _ ih
  | clear _ ih => exact clearSelections_cp_le _
  | selAll n _ ih => exact selectAll_cp_le n
  | splitLine content _ ih => exact splitSelectionByLine_cp_le content _ ih
  | splitRegex rxMatches _ ih => exact splitSelectionByRegex_cp_le rxMatches _ ih
  | selObj content ch inner _ ih => exact selectTextObject_cp_le content ch inner _ ih
  | cursorAbove content _ ih => exact addCursorAbove_cp_le content _ ih
  | cursorBelow content _ ih => exact addCursorBelow_cp_le content _ ih
  | flip _ ih => rw [flipSelections_cp]; exact ih
  | merge _ ih => exact mergeConsecutiveSelections_cp_le _ ih

/-- Witness for C6: the initial selection set. -/
theorem c6_at_most_one_primary_witness :
    ReachableSel initSelections ∧ countPrimary initSelections ≤ 1 :=
  ⟨ReachableSel.init, c6_at_most_one_primary initSelections ReachableSel.init⟩

/-- C8 counterexample: a selection with a negative anchor is a perfectly
representable `Selection` (Python integers; `add_cursor_above` can even
produce offset `-1`), and Python's negative-index slicing then breaks the
identity law: on `"ab"` with `Selection(-1, 0)`, applying the identity
transform returns `"aab"`, duplicating a character. -/
theorem c8_identity_broken_negative :
    applyToSelections "ab".data id [⟨-1, 0, true⟩] = "aab".data ∧
    "aab".data ≠ "ab".data := by
  refine ⟨by decide, by decide⟩

/-- C8 (amended): for every text and every selection set whose anchors and
heads are non-negative offsets, `apply_to_selections` with the identity
transform returns the text unchanged. -/
theorem c8_apply_identity (content : List Char) (sels : List Selection)
    (h : ∀ s ∈ sels, 0 ≤ s.anchor ∧ 0 ≤ s.head) :
    applyToSelections content id sels = content := by
  unfold applyToSelections
  exact foldl_slice_id _ content (fun s hs => h s (mem_sortByStartDesc hs))

/-- Witness for C8: two overlapping selections on `"abc"`. -/
theorem c8_apply_identity_witness :
    applyToSelections "abc".data id [⟨0, 2, true⟩, ⟨1, 3, false⟩] = "abc".data :=
  c8_apply_identity "abc".data [⟨0, 2, true⟩, ⟨1, 3, false⟩] (by decide)

/-- C9: on every reachable register map, reading a name that is not a key
of the map falls back to the unnamed register `""` — `get_register`
returns `registers.get(name, registers.get(""))`, and the unnamed register
is always installed, so the result is that register, never `None`. -/
theorem c9_get_register_fallback (regs : List (String × RegisterV)) (name : String)
    (hreach : ReachableRegs regs) (h : assocGet regs name = none) :
    getRegister regs name = assocGet regs "" ∧ (getRegister regs name).isSome := by
  have hu : (assocGet regs "").isSome := reachableRegs_unnamed hreach
  constructor
  · unfold getRegister
    rw [h]
  · unfold getRegister
    rw [h]
    exact hu

/-- Witness for C9: the uppercase name `"Z"` is not installed by
`__init__`, and reading it from the initial store yields the (empty)
unnamed register. -/
theorem c9_get_register_fallback_witness :
    assocGet initRegisters "Z" = none ∧
    getRegister initRegisters "Z" = assocGet initRegisters "" ∧
    (getRegister initRegisters "Z").isSome := by
  refine ⟨by decide, ?_, ?_⟩
  · exact (c9_get_register_fallback initRegisters "Z" ReachableRegs.init (by decide)).1
  · exact (c9_get_register_fallback initRegisters "Z" ReachableRegs.init (by decide)).2

/-- C10: whenever the text-object finder reports that the enclosing pair
around the selection head cannot be located (returns `None`),
`delete_surround` and `change_surround` return the input text completely
unchanged — no error value, no modification. -/
theorem c10_surround_not_found_unchanged (content : List Char) (sel : Selection)
    (oldCh newCh : Char)
    (h : findObjectI content sel.head oldCh false = .ok none) :
    deleteSurround content sel oldCh = .ok content ∧
    changeSurround content sel oldCh newCh = .ok content := by
  constructor
  · unfold deleteSurround
    rw [h]
  · unfold changeSurround
    rw [h]

/-- Witness for C10: no parentheses around the cursor in `"abc"`. -/
theorem c10_surround_not_found_unchanged_witness :
    findObjectI "abc".data (Selection.head ⟨0, 1, true⟩) '(' false = .ok none ∧
    deleteSurround "abc".data ⟨0, 1, true⟩ '(' = .ok "abc".data ∧
    changeSurround "abc".data ⟨0, 1, true⟩ '(' '[' = .ok "abc".data := by
  refine ⟨by decide, ?_, ?_⟩
  · exact (c10_surround_not_found_unchanged "abc".data ⟨0, 1, true⟩ '(' '['
      (by decide)).1
  · exact (c10_surround_not_found_unchanged "abc".data ⟨0, 1, true⟩ '(' '['
      (by decide)).2
